import Mathlib

/-!
# Verification of the gf2-software definition-language front end

A shallow embedding of the repository's scanner (`scanner.py`), name table
(`names.py`), error log (`errorlog.py`) and recursive-descent parser
(`parse.py`), together with models of the external device/network/monitor
stores (absent from the sources; modelled from the specification, §4.3/§6).
Theorems settle the frozen claims about this front end.

Conventions of the embedding:
* Python integers interned by the name table are `Nat` (all ids are
  non-negative list indices).
* A Python attribute that may be `None` is an `Option`.
* The scanner is total (structural recursion on the remaining text); the
  parser's while-loops are fuel-indexed, and a run that exhausts its fuel
  yields `PRes.nofuel`.  Exceptions deriving from `CustomException` are the
  `exc` result; Python-level exceptions that `except CustomException` does
  not catch (`AttributeError`, `KeyError`) are the `crash` result.
* I/O side effects (printing the report, closing the file handle) are
  dropped: they do not affect any data the claims mention.
-/

namespace GF2

/-- ASCII whitespace, as Python's `str.isspace` classifies the characters
that can occur in circuit definition files. -/
def isSpaceChar (c : Char) : Bool :=
  c = ' ' || c = '\t' || c = '\n' || c = '\r' || c = '\x0b' || c = '\x0c'

/-- ASCII letter, as Python's `str.isalpha` classifies ASCII input. -/
def isAlphaChar (c : Char) : Bool :=
  ('a' ≤ c && c ≤ 'z') || ('A' ≤ c && c ≤ 'Z')

/-- ASCII digit, as Python's `str.isdigit` classifies ASCII input. -/
def isDigitChar (c : Char) : Bool :=
  '0' ≤ c && c ≤ '9'

/-- ASCII alphanumeric, Python's `str.isalnum` on ASCII input. -/
def isAlnumChar (c : Char) : Bool :=
  isAlphaChar c || isDigitChar c

/-- Python's `str.isspace`: true iff the string is non-empty and consists
of whitespace characters only (`"".isspace()` is `False`). -/
def pyIsSpace (s : String) : Bool :=
  !s.isEmpty && s.toList.all isSpaceChar

/-- Python's `str.isdigit` on a whole (ASCII) string: non-empty and all
digits (`"".isdigit()` is `False`). -/
def pyIsDigitStr (s : String) : Bool :=
  !s.isEmpty && s.toList.all isDigitChar

/-- An arbitrary Python object handed to `Names.lookup`: either a string
or some non-string value (`names.py` only tests `isinstance(name, str)`,
so all non-strings behave alike). -/
inductive PyObj where
  | str (s : String)
  | nonStr
deriving DecidableEq, Repr

/-- First index of `s` in a list of strings, `None` when absent
(Python's `list.index` guarded by membership). -/
def listIndexOf (s : String) : List String → Option Nat
  | [] => none
  | x :: xs => if x = s then some 0 else (listIndexOf s xs).map (· + 1)

/-- `names.Names`: the insertion-ordered table of interned strings.
`error_code_count` is carried for completeness of the data model. -/
structure Names where
  names : List String
  error_code_count : Nat := 0
deriving DecidableEq, Repr

/-- `Names.query`: id of `name_string` if present, else `None`.
(The non-string argument branch of the source also returns `None`; the
parser only ever queries string literals, so the model takes a `String`.) -/
def Names.query (ns : Names) (s : String) : Option Nat :=
  listIndexOf s ns.names

/-- `Names.lookup`: return ids for each element, interning new strings.
Elements that are not strings, or that are whitespace-only per
`str.isspace`, are skipped: no id is produced for them. -/
def Names.lookup : Names → List PyObj → List Nat × Names
  | ns, [] => ([], ns)
  | ns, PyObj.nonStr :: xs => Names.lookup ns xs
  | ns, PyObj.str s :: xs =>
    if pyIsSpace s then Names.lookup ns xs
    else
      match listIndexOf s ns.names with
      | some i =>
        let r := Names.lookup ns xs
        (i :: r.1, r.2)
      | none =>
        let r := Names.lookup { ns with names := ns.names ++ [s] } xs
        (ns.names.length :: r.1, r.2)

/-- `names.lookup([s])` for a single alphabetic lexeme, as the scanner
destructures `(symbol.id,) = self.names.lookup([name_string])`.  Lexemes
handed over by the scanner start with a letter, hence are interned and
yield exactly one id; the empty default is unreachable there. -/
def Names.lookupOne (ns : Names) (s : String) : Nat × Names :=
  match ns.lookup [PyObj.str s] with
  | (i :: _, ns') => (i, ns')
  | ([], ns') => (0, ns')

/-- `Names.get_name_string`: the interned string for an id, `None` when
the id is not an index of the table.  (Negative ids raise in the source;
ids are `Nat` here, so that branch has no counterpart.) -/
def Names.get_name_string (ns : Names) (i : Nat) : Option String :=
  ns.names.get? i

/-! ## Scanner (`scanner.py`) -/

namespace Scanner

/-- `Scanner.SYMBOL_TYPES_LIST = [COMMA, SEMICOLON, COLON, DOT, SLASH,
KEYWORD, NUMBER, NAME, ARROW, EOF, *_] = range(50)`. -/
def COMMA : Nat := 0

def SEMICOLON : Nat := 1

def COLON : Nat := 2

def DOT : Nat := 3

def SLASH : Nat := 4

def KEYWORD : Nat := 5

def NUMBER : Nat := 6

def NAME : Nat := 7

def ARROW : Nat := 8

def EOF : Nat := 9

/-- `Scanner.KEYWORDS_LIST`. -/
def KEYWORDS_LIST : List String := ["DEVICE", "CONNECT", "MONITOR", "INPUTS"]

end Scanner

/-- `scanner.Symbol`: type and id are `None` until assigned; the source
position is set by `set_cursor_pos` before every symbol is returned. -/
structure Symbol where
  type : Option Nat := none
  id : Option Nat := none
  line : Nat := 0
  col : Nat := 0
deriving DecidableEq, Repr

/-- The scanner's current character `self.cur`: `start` is the initial
`None`, `eof` is the empty string `read(1)` returns at end of file. -/
inductive Cur where
  | start
  | ch (c : Char)
  | eof
deriving DecidableEq, Repr

/-- The mutable state of `scanner.Scanner`: the unread rest of the file,
the current character, the cursor, and the shared name table.  (The open
file handle and its closing at EOF are I/O and are not modelled.) -/
structure ScanSt where
  text : List Char
  cur : Cur
  line : Nat
  col : Nat
  names : Names
deriving DecidableEq, Repr

/-- `Scanner._advance`: increment the column, read one character (the
empty read at end of file leaves `eof`), and on a newline reset the
column to 0 and increment the line counter. -/
def ScanSt.advance (s : ScanSt) : ScanSt :=
  match s.text with
  | [] => { s with cur := Cur.eof, col := s.col + 1 }
  | c :: rest =>
    if c = '\n' then { s with text := rest, cur := Cur.ch c, col := 0, line := s.line + 1 }
    else { s with text := rest, cur := Cur.ch c, col := s.col + 1 }

/-- Termination measure for the scanner's character loops: each loop
iteration either consumes a character of `text` or moves `cur` towards
`eof`, where every loop guard is false. -/
def ScanSt.meas (s : ScanSt) : Nat :=
  2 * s.text.length + (match s.cur with | Cur.start => 2 | Cur.ch _ => 1 | Cur.eof => 0)

theorem ScanSt.meas_advance_lt (s : ScanSt) (h : s.cur ≠ Cur.eof) :
    s.advance.meas < s.meas := by
  rcases s with ⟨text, cur, line, col, names⟩
  cases text with
  | nil =>
    cases cur with
    | start => simp [ScanSt.advance, ScanSt.meas]
    | ch c => simp [ScanSt.advance, ScanSt.meas]
    | eof => exact absurd rfl h
  | cons c rest =>
    cases cur with
    | start =>
      by_cases hc : c = '\n' <;>
        simp [ScanSt.advance, ScanSt.meas, hc] <;> omega
    | ch c0 =>
      by_cases hc : c = '\n' <;>
        simp [ScanSt.advance, ScanSt.meas, hc] <;> omega
    | eof => exact absurd rfl h

/-- The guard of `Scanner._get_next_non_whitespace`: the current
character is the initial `None` or whitespace (the empty read at end of
file is not whitespace, so the loop stops there). -/
def wsGuard (s : ScanSt) : Bool :=
  match s.cur with
  | Cur.start => true
  | Cur.ch c => isSpaceChar c
  | Cur.eof => false

/-- The whitespace loop, by structural recursion on the unread text:
each iteration is one `_advance` (newline bookkeeping included) followed
by the whitespace test on the character just read.  `skipWs_eq` proves
this equal to the source's loop-form defining equation. -/
def skipWsFrom (ns : Names) (line col : Nat) : List Char → ScanSt
  | [] => ⟨[], Cur.eof, line, col + 1, ns⟩
  | c :: rest =>
    if c = '\n' then skipWsFrom ns (line + 1) 0 rest
    else if isSpaceChar c then skipWsFrom ns line (col + 1) rest
    else ⟨rest, Cur.ch c, line, col + 1, ns⟩

/-- `Scanner._get_next_non_whitespace`. -/
def skipWs (s : ScanSt) : ScanSt :=
  match s.cur with
  | Cur.start => skipWsFrom s.names s.line s.col s.text
  | Cur.ch c => if isSpaceChar c then skipWsFrom s.names s.line s.col s.text else s
  | Cur.eof => s

/-- `skipWs` satisfies the defining equation of the source's whitespace
loop. -/
theorem skipWs_eq (s : ScanSt) :
    skipWs s = if wsGuard s then skipWs s.advance else s := by
  rcases s with ⟨text, cur, line, col, ns⟩
  cases cur with
  | eof => rfl
  | start =>
    show skipWsFrom ns line col text = skipWs (ScanSt.advance ⟨text, Cur.start, line, col, ns⟩)
    cases text with
    | nil => rfl
    | cons c rest =>
      by_cases hnl : c = '\n'
      · simp only [skipWsFrom, ScanSt.advance, hnl, if_pos rfl]
        rfl
      · by_cases hsp : isSpaceChar c
        · simp only [skipWsFrom, ScanSt.advance, hnl, if_neg hnl, hsp, if_pos hsp, if_true]
          show skipWsFrom ns line (col + 1) rest =
            skipWs ⟨rest, Cur.ch c, line, col + 1, ns⟩
          simp [skipWs, hsp]
        · simp only [skipWsFrom, ScanSt.advance, if_neg hnl, hsp, if_neg hsp, if_false]
          show (⟨rest, Cur.ch c, line, col + 1, ns⟩ : ScanSt) =
            skipWs ⟨rest, Cur.ch c, line, col + 1, ns⟩
          simp [skipWs, hsp]
  | ch c0 =>
    show (if isSpaceChar c0 then skipWsFrom ns line col text else _) = _
    by_cases hsp0 : isSpaceChar c0
    · rw [if_pos hsp0]
      show skipWsFrom ns line col text =
        if wsGuard ⟨text, Cur.ch c0, line, col, ns⟩ then
          skipWs (ScanSt.advance ⟨text, Cur.ch c0, line, col, ns⟩)
        else _
      rw [if_pos (by simpa [wsGuard] using hsp0)]
      cases text with
      | nil => rfl
      | cons c rest =>
        by_cases hnl : c = '\n'
        · simp only [skipWsFrom, ScanSt.advance, hnl, if_pos rfl]
          rfl
        · by_cases hsp : isSpaceChar c
          · simp only [skipWsFrom, ScanSt.advance, if_neg hnl, hsp, if_pos hsp, if_true]
            show skipWsFrom ns line (col + 1) rest =
              skipWs ⟨rest, Cur.ch c, line, col + 1, ns⟩
            simp [skipWs, hsp]
          · simp only [skipWsFrom, ScanSt.advance, if_neg hnl, hsp, if_neg hsp, if_false]
            show (⟨rest, Cur.ch c, line, col + 1, ns⟩ : ScanSt) =
              skipWs ⟨rest, Cur.ch c, line, col + 1, ns⟩
            simp [skipWs, hsp]
    · rw [if_neg hsp0, if_neg (by simpa [wsGuard] using hsp0)]

/-- The alphanumeric-accumulation loop of `Scanner._get_name`, by
structural recursion on the unread text.  The entry `getName` tests the
already-read current character; this core advances once per step and
tests the character just read, so it is invoked only with the current
character known alphanumeric and already pushed.  `getName_eq` proves
the pair equal to the source's loop-form defining equation. -/
def getNameCore (ns : Names) (line col : Nat) (acc : String) :
    List Char → String × ScanSt
  | [] => (acc, ⟨[], Cur.eof, line, col + 1, ns⟩)
  | c2 :: rest =>
    if c2 = '\n' then
      if isAlnumChar c2 then getNameCore ns (line + 1) 0 (acc.push c2) rest
      else (acc, ⟨rest, Cur.ch c2, line + 1, 0, ns⟩)
    else
      if isAlnumChar c2 then getNameCore ns line (col + 1) (acc.push c2) rest
      else (acc, ⟨rest, Cur.ch c2, line, col + 1, ns⟩)

/-- `Scanner._get_name`: accumulate alphanumeric characters. -/
def getName (acc : String) (s : ScanSt) : String × ScanSt :=
  match s.cur with
  | Cur.ch c =>
    if isAlnumChar c then getNameCore s.names s.line s.col (acc.push c) s.text
    else (acc, s)
  | _ => (acc, s)

/-- `getName` satisfies the source loop's defining equation. -/
theorem getName_eq (acc : String) (s : ScanSt) :
    getName acc s =
      match s.cur with
      | Cur.ch c => if isAlnumChar c then getName (acc.push c) s.advance else (acc, s)
      | _ => (acc, s) := by
  rcases s with ⟨text, cur, line, col, ns⟩
  cases cur with
  | eof => rfl
  | start => rfl
  | ch c =>
    by_cases ha : isAlnumChar c
    · cases text with
      | nil => simp [getName, getNameCore, ScanSt.advance, ha]
      | cons c2 rest =>
        by_cases hnl : c2 = '\n'
        · simp [getName, getNameCore, ScanSt.advance, ha, hnl]
        · simp [getName, getNameCore, ScanSt.advance, ha, hnl]
    · simp [getName, ha]

/-- The digit-accumulation loop of `Scanner._get_number`, by structural
recursion on the unread text; `int(num_string)` over a run of decimal
digits is the left fold `acc * 10 + digit`.  As in `getNameCore`, the
core is invoked only with the current character known to be a digit and
already folded in.  `getNum_eq` proves the pair equal to the source's
loop-form defining equation. -/
def getNumCore (ns : Names) (line col : Nat) (acc : Nat) :
    List Char → Nat × ScanSt
  | [] => (acc, ⟨[], Cur.eof, line, col + 1, ns⟩)
  | c2 :: rest =>
    if c2 = '\n' then
      if isDigitChar c2 then
        getNumCore ns (line + 1) 0 (acc * 10 + (c2.toNat - Char.toNat '0')) rest
      else (acc, ⟨rest, Cur.ch c2, line + 1, 0, ns⟩)
    else
      if isDigitChar c2 then
        getNumCore ns line (col + 1) (acc * 10 + (c2.toNat - Char.toNat '0')) rest
      else (acc, ⟨rest, Cur.ch c2, line, col + 1, ns⟩)

/-- `Scanner._get_number`. -/
def getNum (acc : Nat) (s : ScanSt) : Nat × ScanSt :=
  match s.cur with
  | Cur.ch c =>
    if isDigitChar c then
      getNumCore s.names s.line s.col (acc * 10 + (c.toNat - Char.toNat '0')) s.text
    else (acc, s)
  | _ => (acc, s)

/-- `getNum` satisfies the source loop's defining equation. -/
theorem getNum_eq (acc : Nat) (s : ScanSt) :
    getNum acc s =
      match s.cur with
      | Cur.ch c =>
        if isDigitChar c then getNum (acc * 10 + (c.toNat - Char.toNat '0')) s.advance
        else (acc, s)
      | _ => (acc, s) := by
  rcases s with ⟨text, cur, line, col, ns⟩
  cases cur with
  | eof => rfl
  | start => rfl
  | ch c =>
    by_cases ha : isDigitChar c
    · cases text with
      | nil => simp [getNum, getNumCore, ScanSt.advance, ha]
      | cons c2 rest =>
        by_cases hnl : c2 = '\n'
        · simp [getNum, getNumCore, ScanSt.advance, ha, hnl]
        · simp [getNum, getNumCore, ScanSt.advance, ha, hnl]
    · simp [getNum, ha]

/-- `Scanner.get_symbol`: skip whitespace, record the cursor position of
the first character, dispatch on that character, and advance past
single-character punctuation (and past unrecognised characters, whose
symbol keeps `type = None`). -/
def getSymbol (s0 : ScanSt) : Symbol × ScanSt :=
  let s := skipWs s0
  let line := s.line
  let col := s.col
  match s.cur with
  | Cur.ch c =>
    if isAlphaChar c then
      let (nm, s1) := getName "" s
      let ty := if nm ∈ Scanner.KEYWORDS_LIST then Scanner.KEYWORD else Scanner.NAME
      let (i, names') := s1.names.lookupOne nm
      ({ type := some ty, id := some i, line := line, col := col },
       { s1 with names := names' })
    else if isDigitChar c then
      let (n, s1) := getNum 0 s
      ({ type := some Scanner.NUMBER, id := some n, line := line, col := col }, s1)
    else if c = '-' then
      let s1 := s.advance
      match s1.cur with
      | Cur.ch '>' =>
        ({ type := some Scanner.ARROW, id := none, line := line, col := col }, s1.advance)
      | _ =>
        ({ type := none, id := none, line := line, col := col }, s1.advance)
    else if c = ',' then
      ({ type := some Scanner.COMMA, id := none, line := line, col := col }, s.advance)
    else if c = ':' then
      ({ type := some Scanner.COLON, id := none, line := line, col := col }, s.advance)
    else if c = ';' then
      ({ type := some Scanner.SEMICOLON, id := none, line := line, col := col }, s.advance)
    else if c = '/' then
      ({ type := some Scanner.SLASH, id := none, line := line, col := col }, s.advance)
    else if c = '.' then
      ({ type := some Scanner.DOT, id := none, line := line, col := col }, s.advance)
    else
      ({ type := none, id := none, line := line, col := col }, s.advance)
  | _ =>
    ({ type := some Scanner.EOF, id := none, line := line, col := col }, s)

/-- `Scanner.__init__`: intern the four keywords into the shared name
table; the cursor starts at line 1, column 1, before any character has
been read. -/
def initScan (text : String) (ns : Names) : ScanSt :=
  let (_, ns') := ns.lookup (Scanner.KEYWORDS_LIST.map PyObj.str)
  { text := text.toList, cur := Cur.start, line := 1, col := 1, names := ns' }

/-! ## Error log (`errorlog.py`) -/

/-- The `CustomException` subclasses of `errorlog.py`, plus the base
class itself (raised directly in `Parser._connection`). -/
inductive ErrKind where
  | PunctuationError
  | DeviceDefinitionError
  | MissingKeywordError
  | NameSyntaxError
  | DeviceReferenceError
  | PortReferenceError
  | ProtectedKeywordError
  | MultipleConnectionError
  | OutOfBoundsError
  | CustomException
deriving DecidableEq, Repr

/-- One recorded diagnostic: the exception's kind and the cursor position
attached by `set_error_pos` from the symbol current at raise time.
(The human-readable message strings do not affect control flow.) -/
structure Diag where
  kind : ErrKind
  line : Nat
  col : Nat
deriving DecidableEq, Repr

/-- `ErrorLog.no_errors`: `len(self.errors) == 0`. -/
def noErrors (errors : List Diag) : Bool :=
  errors.isEmpty

/-! ## External stores

`devices.py`, `network.py` and `monitors.py` are not among the sources;
the spec treats them as external collaborators (§1, §6).  The models
below follow the spec's contracts and the parser's usage of them. -/

/-- Modelled from the spec: one entry of the Device table — identifier,
kind, optional property number (§4.3 `device` rule, §6 `make_device`),
and the device's input ports, each either unconnected or carrying the
output `(device, port)` currently driving it (§4.3 `connection` rule:
"the referenced input has already been assigned a source output"). -/
structure Device where
  did : Nat
  kind : Nat
  property : Option Nat
  inputs : List (Nat × Option (Nat × Option Nat))
deriving DecidableEq, Repr

/-- Modelled from the spec: the Device store.  Its construction interns
the fixed device-kind vocabulary (`SWITCH`, `CLOCK`, `DTYPE`, `NOT`,
`XOR`, and the generic gates `AND`/`OR`/`NAND`/`NOR`) and the D-type port
names (`DATA`/`CLK`/`SET`/`CLEAR` inputs, `Q`/`QBAR` outputs) into the
shared name table (§4.3, §9: "centralize all fixed vocabulary ...
resolved once at startup").  `parse.py` reads all of these attributes. -/
structure DevStore where
  AND : Nat
  OR : Nat
  NAND : Nat
  NOR : Nat
  XOR : Nat
  CLOCK : Nat
  SWITCH : Nat
  D_TYPE : Nat
  NOT : Nat
  dtype_input_ids : List Nat
  dtype_output_ids : List Nat
  devices : List Device
deriving DecidableEq, Repr

/-- `Devices.gate_types`: the generic gate kinds (§4.3: gatename in
AND, OR, NAND, NOR). -/
def DevStore.gate_types (ds : DevStore) : List Nat :=
  [ds.AND, ds.OR, ds.NAND, ds.NOR]

/-- Modelled from the spec: `make_device`'s `NO_ERROR` success code
(§6: `make_device(...) -> ok/error`). -/
def DevStore.NO_ERROR : Nat := 0

/-- Modelled from the spec: construct the Device store over the shared
name table, interning the fixed vocabulary. -/
def DevStore.init (ns0 : Names) : DevStore × Names :=
  let (a, ns1) := ns0.lookupOne "AND"
  let (o, ns2) := ns1.lookupOne "OR"
  let (na, ns3) := ns2.lookupOne "NAND"
  let (no, ns4) := ns3.lookupOne "NOR"
  let (x, ns5) := ns4.lookupOne "XOR"
  let (ck, ns6) := ns5.lookupOne "CLOCK"
  let (sw, ns7) := ns6.lookupOne "SWITCH"
  let (dt, ns8) := ns7.lookupOne "DTYPE"
  let (nt, ns9) := ns8.lookupOne "NOT"
  let (da, ns10) := ns9.lookupOne "DATA"
  let (dck, ns11) := ns10.lookupOne "CLK"
  let (se, ns12) := ns11.lookupOne "SET"
  let (cl, ns13) := ns12.lookupOne "CLEAR"
  let (q, ns14) := ns13.lookupOne "Q"
  let (qb, ns15) := ns14.lookupOne "QBAR"
  (⟨a, o, na, no, x, ck, sw, dt, nt, [da, dck, se, cl], [q, qb], []⟩, ns15)

/-- `Devices.get_device`: the created device with this id, or `None`. -/
def DevStore.get_device (ds : DevStore) (did : Nat) : Option Device :=
  ds.devices.find? (fun d => d.did == did)

/-- Modelled from the spec: intern the gate input port names `I1..In`
and return the fresh unconnected input-port list. -/
def gateInputPorts (ns : Names) (n : Nat) : List (Nat × Option (Nat × Option Nat)) × Names :=
  let (ids, ns') := ns.lookup (((List.range n).map (fun k => PyObj.str ("I" ++ toString (k + 1)))))
  (ids.map (fun i => (i, none)), ns')

/-- Modelled from the spec: `make_device(device_id, kind_id,
property_or_none) -> ok/error` (§6).  On success the device is added to
the table with input ports determined by its kind: none for switches and
clocks, `I1..In` for a generic gate with property `n`, `I1`/`I2` for
XOR, `I1` for NOT, and the fixed `DATA`/`CLK`/`SET`/`CLEAR` set for a
D-type.  A duplicate identifier or an unrecognised kind is rejected
(§4.3: "the store's own rejection is surfaced as a secondary error"). -/
def DevStore.make_device (ds : DevStore) (ns : Names) (did kind prop : Option Nat) :
    Nat × DevStore × Names :=
  match did, kind with
  | some d, some k =>
    if (ds.get_device d).isSome then (1, ds, ns)
    else if k = ds.SWITCH ∨ k = ds.CLOCK then
      (DevStore.NO_ERROR, { ds with devices := ds.devices ++ [⟨d, k, prop, []⟩] }, ns)
    else if k = ds.D_TYPE then
      (DevStore.NO_ERROR,
       { ds with devices := ds.devices ++ [⟨d, k, prop, ds.dtype_input_ids.map (fun i => (i, none))⟩] },
       ns)
    else if k = ds.XOR then
      let (ports, ns') := gateInputPorts ns 2
      (DevStore.NO_ERROR, { ds with devices := ds.devices ++ [⟨d, k, prop, ports⟩] }, ns')
    else if k = ds.NOT then
      let (ports, ns') := gateInputPorts ns 1
      (DevStore.NO_ERROR, { ds with devices := ds.devices ++ [⟨d, k, prop, ports⟩] }, ns')
    else if k ∈ ds.gate_types then
      match prop with
      | some n =>
        let (ports, ns') := gateInputPorts ns n
        (DevStore.NO_ERROR, { ds with devices := ds.devices ++ [⟨d, k, prop, ports⟩] }, ns')
      | none => (2, ds, ns)
    else (2, ds, ns)
  | _, _ => (2, ds, ns)

/-- Modelled from the spec: the Network store records the connections
made (§6: `make_connection(in_device, in_port, out_device, out_port) ->
ok/error`). -/
structure NetStore where
  connections : List (Nat × Nat × Nat × Option Nat)
deriving DecidableEq, Repr

/-- Modelled from the spec: `make_connection`'s success code. -/
def NetStore.NO_ERROR : Nat := 0

/-- Replace the entry for input port `p` of device `d` with the driving
output `src`. -/
def DevStore.connectInput (ds : DevStore) (d p : Nat) (src : Nat × Option Nat) : DevStore :=
  { ds with
    devices := ds.devices.map (fun dev =>
      if dev.did == d then
        { dev with inputs := dev.inputs.map (fun e => if e.1 == p then (e.1, some src) else e) }
      else dev) }

/-- Modelled from the spec: `make_connection` checks that both devices
exist, that the input port exists on the input device and is still free,
then records the connection and marks the input as driven. -/
def NetStore.make_connection (net : NetStore) (ds : DevStore)
    (ind inp outd : Nat) (outp : Option Nat) : Nat × NetStore × DevStore :=
  match ds.get_device ind, ds.get_device outd with
  | some dev, some _ =>
    match dev.inputs.lookup inp with
    | some none =>
      (NetStore.NO_ERROR, { net with connections := net.connections ++ [(ind, inp, outd, outp)] },
       ds.connectInput ind inp (outd, outp))
    | some (some _) => (1, net, ds)
    | none => (2, net, ds)
  | _, _ => (3, net, ds)

/-! ## Parser (`parse.py`)

The parser holds the current symbol and the shared collaborators.  Its
while-loops take explicit fuel; everything else is direct control flow.
Each call the parser makes into a store's creation operation is also
recorded in a trace, together with the number of diagnostics in the
error log at the moment of the call (the quantity `no_errors()` tests
right before each such call). -/

/-- Which creation operation was invoked (§6 boundary calls). -/
inductive CallKind where
  | mkDevice
  | mkConnection
  | mkMonitor
deriving DecidableEq, Repr

/-- One boundary call made by the parser and the size of the error log
when it was made. -/
structure StoreCall where
  kind : CallKind
  errorsAtCall : Nat
deriving DecidableEq, Repr

/-- The parser's mutable state: scanner (with the shared name table),
current symbol, the external stores, the error log, and the boundary
call trace. -/
structure PState where
  scan : ScanSt
  symbol : Symbol
  dev : DevStore
  net : NetStore
  mons : List (Nat × Option Nat)
  errors : List Diag
  calls : List StoreCall
deriving DecidableEq, Repr

/-- Result of running a parser rule: normal return, a `CustomException`
propagating to an enclosing handler, a Python-level exception no handler
in `parse.py` catches, or fuel exhaustion of the embedding. -/
inductive PRes (α : Type) where
  | ok (a : α) (st : PState)
  | exc (e : ErrKind) (st : PState)
  | crash (st : PState)
  | nofuel
deriving DecidableEq, Repr

/-- `Parser._next_symbol`. -/
def nextSymbol (st : PState) : PState :=
  let (sym, s') := getSymbol st.scan
  { st with scan := s', symbol := sym }

/-- The skip loop of `Parser._error`: read symbols until one whose type
is in the stopping set, or EOF, is current. -/
def skipLoop (stops : List Nat) : Nat → PState → PRes Unit
  | 0, st =>
    if st.symbol.type ∈ (stops ++ [Scanner.EOF]).map some then PRes.ok () st
    else PRes.nofuel
  | f + 1, st =>
    if st.symbol.type ∈ (stops ++ [Scanner.EOF]).map some then PRes.ok () st
    else skipLoop stops f (nextSymbol st)

/-- `Parser._error`: attach the current symbol's position to the
exception, append it to the error log, then skip the current symbol and
keep reading until a stopping symbol (or EOF) is reached. -/
def perror (e : ErrKind) (stops : List Nat) (f : Nat) (st : PState) : PRes Unit :=
  let st1 := { st with errors := st.errors ++ [⟨e, st.symbol.line, st.symbol.col⟩] }
  skipLoop stops f (nextSymbol st1)

/-- The inner loop of `Parser._comment`: read symbols until a slash is
current.  Faithfully to the source, the loop has no EOF test. -/
def commentLoop : Nat → PState → PRes Unit
  | 0, st =>
    if st.symbol.type = some Scanner.SLASH then PRes.ok () st
    else PRes.nofuel
  | f + 1, st =>
    if st.symbol.type = some Scanner.SLASH then PRes.ok () st
    else commentLoop f (nextSymbol st)

/-- `Parser._comment`: if the current symbol is a slash, discard symbols
up to the next slash, then continue from the symbol after it. -/
def comment (f : Nat) (st : PState) : PRes Unit :=
  if st.symbol.type = some Scanner.SLASH then
    match commentLoop f (nextSymbol st) with
    | PRes.ok _ st' => PRes.ok () (nextSymbol st')
    | PRes.exc e st' => PRes.exc e st'
    | PRes.crash st' => PRes.crash st'
    | PRes.nofuel => PRes.nofuel
  else PRes.ok () st

/-- `Parser._devicename`: a NAME symbol yields its id; a KEYWORD raises
`ProtectedKeywordError`; anything else raises `NameSyntaxError`.  (NAME
symbols always carry an interned id, so the `Option` default is never
the value returned.) -/
def devicename (st : PState) : PRes Nat :=
  if st.symbol.type = some Scanner.NAME then PRes.ok (st.symbol.id.getD 0) st
  else if st.symbol.type = some Scanner.KEYWORD then PRes.exc ErrKind.ProtectedKeywordError st
  else PRes.exc ErrKind.NameSyntaxError st

/-- `Parser._outputname`: a defined device, optionally followed by a dot
and a D-type output port; a bare device name denotes its implicit output
(port id `None`). -/
def outputname (st : PState) : PRes (Nat × Option Nat) :=
  match devicename st with
  | PRes.ok did st1 =>
    if (st1.dev.get_device did).isNone then PRes.exc ErrKind.DeviceReferenceError st1
    else
      let st2 := nextSymbol st1
      if st2.symbol.type = some Scanner.DOT then
        let st3 := nextSymbol st2
        if st3.symbol.type = some Scanner.NAME then
          if st3.symbol.id ∈ st3.dev.dtype_output_ids.map some then
            PRes.ok (did, st3.symbol.id) (nextSymbol st3)
          else PRes.exc ErrKind.NameSyntaxError st3
        else PRes.exc ErrKind.NameSyntaxError st3
      else PRes.ok (did, none) st2
  | PRes.exc e st' => PRes.exc e st'
  | PRes.crash st' => PRes.crash st'
  | PRes.nofuel => PRes.nofuel

/-- `Parser._inputname`: a defined device, a dot, and an input port that
is either a D-type input or `I` followed by digits. -/
def inputname (st : PState) : PRes (Nat × Nat) :=
  match devicename st with
  | PRes.ok did st1 =>
    if (st1.dev.get_device did).isNone then PRes.exc ErrKind.DeviceReferenceError st1
    else
      let st2 := nextSymbol st1
      if st2.symbol.type = some Scanner.DOT then
        let st3 := nextSymbol st2
        if st3.symbol.type = some Scanner.NAME then
          if st3.symbol.id ∈ st3.dev.dtype_input_ids.map some then
            PRes.ok (did, st3.symbol.id.getD 0) (nextSymbol st3)
          else
            match st3.scan.names.get_name_string (st3.symbol.id.getD 0) with
            | some s =>
              if s.toList.head? = some 'I' ∧ pyIsDigitStr (s.drop 1) then
                PRes.ok (did, st3.symbol.id.getD 0) (nextSymbol st3)
              else PRes.exc ErrKind.PortReferenceError st3
            | none => PRes.exc ErrKind.PortReferenceError st3
        else PRes.exc ErrKind.NameSyntaxError st3
      else PRes.exc ErrKind.PunctuationError st2
  | PRes.exc e st' => PRes.exc e st'
  | PRes.crash st' => PRes.crash st'
  | PRes.nofuel => PRes.nofuel

/-! ### Devices -/

/-- The generic-gate tail of `Parser._device`'s `try` body (parse.py
lines 244-271): after a gate-kind name, a NUMBER whose value must lie in
`1 < n <= 16` (else `OutOfBoundsError`), then the keyword `INPUTS`. -/
def deviceTryGateNumber (did : Nat) (kind : Option Nat) (st4 : PState) :
    PRes (Nat × Option Nat × Option Nat) :=
  if st4.symbol.type = some Scanner.NUMBER then
    let n := st4.symbol.id.getD 0
    if ¬(1 < n ∧ n ≤ 16) then PRes.exc ErrKind.OutOfBoundsError st4
    else
      let st5 := nextSymbol st4
      if st5.symbol.type = some Scanner.KEYWORD ∧
          st5.symbol.id = st5.scan.names.query "INPUTS" then
        PRes.ok (did, kind, some n) (nextSymbol st5)
      else PRes.exc ErrKind.MissingKeywordError st5
  else PRes.exc ErrKind.DeviceDefinitionError st4

/-- The `try` body of `Parser._device` (parse.py lines 195-287): resolve
the local variables `device_id`, `device_kind`, `device_property` or
raise the appropriate `CustomException`. -/
def deviceTry (st : PState) : PRes (Nat × Option Nat × Option Nat) :=
  match devicename st with
  | PRes.ok did st1 =>
    let st2 := nextSymbol st1
    if st2.symbol.type = some Scanner.COLON then
      let st3 := nextSymbol st2
      let kind := st3.symbol.id
      if st3.symbol.type = some Scanner.NAME ∧ st3.symbol.id = some st3.dev.SWITCH then
        let st4 := nextSymbol st3
        if st4.symbol.type = some Scanner.NUMBER ∧
            (st4.symbol.id = some 0 ∨ st4.symbol.id = some 1) then
          PRes.ok (did, kind, st4.symbol.id) (nextSymbol st4)
        else PRes.exc ErrKind.DeviceDefinitionError st4
      else if st3.symbol.type = some Scanner.NAME ∧ st3.symbol.id = some st3.dev.CLOCK then
        let st4 := nextSymbol st3
        if st4.symbol.type = some Scanner.NUMBER then
          PRes.ok (did, kind, st4.symbol.id) (nextSymbol st4)
        else PRes.exc ErrKind.DeviceDefinitionError st4
      else if st3.symbol.type = some Scanner.NAME ∧
          (st3.symbol.id = some st3.dev.D_TYPE ∨ st3.symbol.id = some st3.dev.NOT ∨
            st3.symbol.id = some st3.dev.XOR) then
        PRes.ok (did, kind, none) (nextSymbol st3)
      else if st3.symbol.type = some Scanner.NAME ∧
          st3.symbol.id ∈ st3.dev.gate_types.map some then
        deviceTryGateNumber did kind (nextSymbol st3)
      else PRes.exc ErrKind.NameSyntaxError st3
    else PRes.exc ErrKind.PunctuationError st2
  | PRes.exc e st' => PRes.exc e st'
  | PRes.crash st' => PRes.crash st'
  | PRes.nofuel => PRes.nofuel

/-- The `finally` block of `Parser._device`: when the error log is
completely empty, call `make_device` (recording the boundary call);
should the store reject, the source calls `self._error(None, "Device
error")`, which dereferences `None` — a Python `AttributeError`, hence
`crash`.  The `none` locals case models reading the unbound
`device_id` after an exception (unreachable: the handler has just
logged a diagnostic, so the log is non-empty on that path). -/
def deviceCreate (vals : Option (Nat × Option Nat × Option Nat)) (st : PState) : PRes Unit :=
  if st.errors.isEmpty then
    match vals with
    | some (did, kind, prop) =>
      let (ec, dev', ns') := st.dev.make_device st.scan.names (some did) kind prop
      let st1 := { st with
                   dev := dev'
                   scan := { st.scan with names := ns' }
                   calls := st.calls ++ [⟨CallKind.mkDevice, st.errors.length⟩] }
      if ec ≠ DevStore.NO_ERROR then PRes.crash st1 else PRes.ok () st1
    | none => PRes.crash st
  else PRes.ok () st

/-- `Parser._device`: the `try` body, the `except CustomException`
handler (`self._error(err)` with the default stopping set), and the
`finally` creation step, which runs on every path. -/
def device (f : Nat) (st : PState) : PRes Unit :=
  match deviceTry st with
  | PRes.ok vals st' => deviceCreate (some vals) st'
  | PRes.exc e st' =>
    match perror e [Scanner.COMMA, Scanner.SEMICOLON] f st' with
    | PRes.ok _ st'' => deviceCreate none st''
    | PRes.exc e' st'' => PRes.exc e' st''
    | PRes.crash st'' => PRes.crash st''
    | PRes.nofuel => PRes.nofuel
  | PRes.crash st' => PRes.crash st'
  | PRes.nofuel => PRes.nofuel

/-! ### Connections -/

/-- Result of the `try` body of `Parser._connection`.  `keyErr` is the
Python `KeyError` raised by `in_device.inputs[in_port_id]` when the
resolved port id is not a key of the input dictionary; the locals are
already bound at that point, and `except CustomException` does not catch
it, so the `finally` block still runs before it propagates. -/
inductive ConnTryRes where
  | ok (vals : Nat × Nat × Nat × Option Nat) (st : PState)
  | exc (e : ErrKind) (st : PState)
  | keyErr (vals : Nat × Nat × Nat × Option Nat) (st : PState)
  | crash (st : PState)
  | nofuel
deriving DecidableEq, Repr

/-- The `try` body of `Parser._connection` (parse.py lines 302-319):
resolve the output, require an arrow, resolve the input, and raise
`MultipleConnectionError` when the input is already driven. -/
def connectionTry (st : PState) : ConnTryRes :=
  match outputname st with
  | PRes.ok (outd, outp) st1 =>
    if st1.symbol.type = some Scanner.ARROW then
      match inputname (nextSymbol st1) with
      | PRes.ok (ind, inp) st2 =>
        match st2.dev.get_device ind with
        | some dev =>
          match dev.inputs.lookup inp with
          | some (some _) => ConnTryRes.exc ErrKind.MultipleConnectionError st2
          | some none => ConnTryRes.ok (ind, inp, outd, outp) st2
          | none => ConnTryRes.keyErr (ind, inp, outd, outp) st2
        | none => ConnTryRes.keyErr (ind, inp, outd, outp) st2
      | PRes.exc e st2 => ConnTryRes.exc e st2
      | PRes.crash st2 => ConnTryRes.crash st2
      | PRes.nofuel => ConnTryRes.nofuel
    else ConnTryRes.exc ErrKind.PunctuationError st1
  | PRes.exc e st1 => ConnTryRes.exc e st1
  | PRes.crash st1 => ConnTryRes.crash st1
  | PRes.nofuel => ConnTryRes.nofuel

/-- The `finally` block of `Parser._connection`: when the error log is
completely empty, call `make_connection` (recording the boundary call);
should the store reject, the source raises a bare `CustomException`
inside `finally`, which propagates to `_connectionlist`'s handler. -/
def connectionCreate (vals : Option (Nat × Nat × Nat × Option Nat)) (st : PState) : PRes Unit :=
  if st.errors.isEmpty then
    match vals with
    | some (ind, inp, outd, outp) =>
      let (ec, net', dev') := st.net.make_connection st.dev ind inp outd outp
      let st1 := { st with
                   net := net'
                   dev := dev'
                   calls := st.calls ++ [⟨CallKind.mkConnection, st.errors.length⟩] }
      if ec ≠ NetStore.NO_ERROR then PRes.exc ErrKind.CustomException st1 else PRes.ok () st1
    | none => PRes.crash st
  else PRes.ok () st

/-- `Parser._connection`: `try` body, handler, and the `finally`
creation step; a `KeyError` from the body resumes after `finally` unless
`finally` itself raises. -/
def connection (f : Nat) (st : PState) : PRes Unit :=
  match connectionTry st with
  | ConnTryRes.ok vals st' => connectionCreate (some vals) st'
  | ConnTryRes.exc e st' =>
    match perror e [Scanner.COMMA, Scanner.SEMICOLON] f st' with
    | PRes.ok _ st'' => connectionCreate none st''
    | PRes.exc e' st'' => PRes.exc e' st''
    | PRes.crash st'' => PRes.crash st''
    | PRes.nofuel => PRes.nofuel
  | ConnTryRes.keyErr vals st' =>
    match connectionCreate (some vals) st' with
    | PRes.ok _ st'' => PRes.crash st''
    | r => r
  | ConnTryRes.crash st' =>
    match connectionCreate none st' with
    | PRes.ok _ st'' => PRes.crash st''
    | r => r
  | ConnTryRes.nofuel => PRes.nofuel

/-! ### Monitors -/

/-- The `finally` block of `Parser._monitor`: when the error log is
completely empty, call `make_monitor` (whose return value the parser
ignores), recording the boundary call. -/
def monitorCreate (vals : Option (Nat × Option Nat)) (st : PState) : PRes Unit :=
  if st.errors.isEmpty then
    match vals with
    | some (outd, outp) =>
      PRes.ok () { st with
                   mons := st.mons ++ [(outd, outp)]
                   calls := st.calls ++ [⟨CallKind.mkMonitor, st.errors.length⟩] }
    | none => PRes.crash st
  else PRes.ok () st

/-- `Parser._monitor`: an `outputname`, with the handler and the
`finally` creation step. -/
def monitor (f : Nat) (st : PState) : PRes Unit :=
  match outputname st with
  | PRes.ok vals st' => monitorCreate (some vals) st'
  | PRes.exc e st' =>
    match perror e [Scanner.COMMA, Scanner.SEMICOLON] f st' with
    | PRes.ok _ st'' => monitorCreate none st''
    | PRes.exc e' st'' => PRes.exc e' st''
    | PRes.crash st'' => PRes.crash st''
    | PRes.nofuel => PRes.nofuel
  | PRes.crash st' => PRes.crash st'
  | PRes.nofuel => PRes.nofuel

/-! ### The three list rules -/

/-- The comma loop of `Parser._devicelist`: while the current symbol is
a comma — advance, take an optional comment, parse the next device. -/
def devItemsLoop : Nat → PState → PRes Unit
  | 0, st =>
    if st.symbol.type = some Scanner.COMMA then PRes.nofuel
    else PRes.ok () st
  | f + 1, st =>
    if st.symbol.type = some Scanner.COMMA then
      match comment f (nextSymbol st) with
      | PRes.ok _ st1 =>
        match device f st1 with
        | PRes.ok _ st2 => devItemsLoop f st2
        | r => r
      | r => r
    else PRes.ok () st

/-- The `try` body of `Parser._devicelist`: the `DEVICE` keyword, one or
more devices separated by commas, a terminating semicolon followed by an
optional comment. -/
def devicelistTry (f : Nat) (st : PState) : PRes Unit :=
  if st.symbol.type = some Scanner.KEYWORD ∧ st.symbol.id = st.scan.names.query "DEVICE" then
    match device f (nextSymbol st) with
    | PRes.ok _ st1 =>
      match devItemsLoop f st1 with
      | PRes.ok _ st2 =>
        if st2.symbol.type = some Scanner.SEMICOLON then comment f (nextSymbol st2)
        else PRes.exc ErrKind.PunctuationError st2
      | r => r
    | r => r
  else PRes.exc ErrKind.MissingKeywordError st

/-- `Parser._devicelist`: its `try` body `devicelistTry`, with the
`except CustomException` handler resynchronising on a semicolon. -/
def devicelist (f : Nat) (st : PState) : PRes Unit :=
  match devicelistTry f st with
  | PRes.exc e st' => perror e [Scanner.SEMICOLON] f st'
  | r => r

/-- The comma loop of `Parser._connectionlist`. -/
def connItemsLoop : Nat → PState → PRes Unit
  | 0, st =>
    if st.symbol.type = some Scanner.COMMA then PRes.nofuel
    else PRes.ok () st
  | f + 1, st =>
    if st.symbol.type = some Scanner.COMMA then
      match comment f (nextSymbol st) with
      | PRes.ok _ st1 =>
        match connection f st1 with
        | PRes.ok _ st2 => connItemsLoop f st2
        | r => r
      | r => r
    else PRes.ok () st

/-- The `try` body of `Parser._connectionlist`.  Faithfully to the
source, at the terminating semicolon `_comment()` is called *before*
advancing past the semicolon (the opposite order to `_devicelist`), so
the current symbol is still the semicolon when the comment rule looks
for a slash. -/
def connectionlistTry (f : Nat) (st : PState) : PRes Unit :=
  if st.symbol.type = some Scanner.KEYWORD ∧ st.symbol.id = st.scan.names.query "CONNECT" then
    match connection f (nextSymbol st) with
    | PRes.ok _ st1 =>
      match connItemsLoop f st1 with
      | PRes.ok _ st2 =>
        if st2.symbol.type = some Scanner.SEMICOLON then
          match comment f st2 with
          | PRes.ok _ st3 => PRes.ok () (nextSymbol st3)
          | r => r
        else PRes.exc ErrKind.PunctuationError st2
      | r => r
    | r => r
  else PRes.exc ErrKind.MissingKeywordError st

/-- `Parser._connectionlist`: its `try` body, with the handler
resynchronising on a semicolon. -/
def connectionlist (f : Nat) (st : PState) : PRes Unit :=
  match connectionlistTry f st with
  | PRes.exc e st' => perror e [Scanner.SEMICOLON] f st'
  | r => r

/-- The comma loop of `Parser._monitorlist`. -/
def monItemsLoop : Nat → PState → PRes Unit
  | 0, st =>
    if st.symbol.type = some Scanner.COMMA then PRes.nofuel
    else PRes.ok () st
  | f + 1, st =>
    if st.symbol.type = some Scanner.COMMA then
      match comment f (nextSymbol st) with
      | PRes.ok _ st1 =>
        match monitor f st1 with
        | PRes.ok _ st2 => monItemsLoop f st2
        | r => r
      | r => r
    else PRes.ok () st

/-- The `try` body of `Parser._monitorlist`; like `_connectionlist`, the
comment rule runs before the semicolon is consumed. -/
def monitorlistTry (f : Nat) (st : PState) : PRes Unit :=
  if st.symbol.type = some Scanner.KEYWORD ∧ st.symbol.id = st.scan.names.query "MONITOR" then
    match monitor f (nextSymbol st) with
    | PRes.ok _ st1 =>
      match monItemsLoop f st1 with
      | PRes.ok _ st2 =>
        if st2.symbol.type = some Scanner.SEMICOLON then
          match comment f st2 with
          | PRes.ok _ st3 => PRes.ok () (nextSymbol st3)
          | r => r
        else PRes.exc ErrKind.PunctuationError st2
      | r => r
    | r => r
  else PRes.exc ErrKind.MissingKeywordError st

/-- `Parser._monitorlist`: its `try` body, with the handler
resynchronising on a semicolon. -/
def monitorlist (f : Nat) (st : PState) : PRes Unit :=
  match monitorlistTry f st with
  | PRes.exc e st' => perror e [Scanner.SEMICOLON] f st'
  | r => r

/-! ### Top level -/

/-- The initial parser state over a definition text: an empty name
table, the Device store constructed first (as in the repository's
wiring: `Names()`, `Devices(names)`, `Network`, `Monitors`,
`Scanner(path, names)`, `Parser(...)`), then the scanner. -/
def initPState (text : String) : PState :=
  let (dev, ns1) := DevStore.init ⟨[], 0⟩
  { scan := initScan text ns1
    symbol := {}
    dev := dev
    net := ⟨[]⟩
    mons := []
    errors := []
    calls := [] }

/-- `Parser.parse_network`: read the first symbol, run the three list
rules in order, and return `no_errors()` (the printing of the report is
I/O and not modelled). -/
def parseNetwork (f : Nat) (text : String) : PRes Bool :=
  match devicelist f (nextSymbol (initPState text)) with
  | PRes.ok _ st1 =>
    match connectionlist f st1 with
    | PRes.ok _ st2 =>
      match monitorlist f st2 with
      | PRes.ok _ st3 => PRes.ok (noErrors st3.errors) st3
      | PRes.exc e st' => PRes.exc e st'
      | PRes.crash st' => PRes.crash st'
      | PRes.nofuel => PRes.nofuel
    | PRes.exc e st' => PRes.exc e st'
    | PRes.crash st' => PRes.crash st'
    | PRes.nofuel => PRes.nofuel
  | PRes.exc e st' => PRes.exc e st'
  | PRes.crash st' => PRes.crash st'
  | PRes.nofuel => PRes.nofuel

/-- The names of the created devices, in creation order (read back
through the shared name table, as the tests do). -/
def deviceNames (st : PState) : List (Option String) :=
  st.dev.devices.map (fun d => st.scan.names.get_name_string d.did)

/-- The returned value of a run, when it returned normally. -/
def PRes.val? {α : Type} : PRes α → Option α
  | PRes.ok a _ => some a
  | _ => none

/-- The final parser state of a run, on any outcome that has one. -/
def PRes.state? {α : Type} : PRes α → Option PState
  | PRes.ok _ st => some st
  | PRes.exc _ st => some st
  | PRes.crash st => some st
  | PRes.nofuel => none

/-- The boundary-call trace of a run (empty when fuel ran out). -/
def PRes.callsOf {α : Type} : PRes α → List StoreCall
  | PRes.ok _ st => st.calls
  | PRes.exc _ st => st.calls
  | PRes.crash st => st.calls
  | PRes.nofuel => []

/-! ## Theorems settling the claims

Concrete runs are evaluated definitionally; for those theorems smart
unfolding is disabled locally, because the elaborator's smart-unfolding
heuristic makes the evaluations intractably slow, while plain unfolding
is fast. -/

/-- The input of claim C1 (spec §8, concrete scenario 1). -/
def c1Input : String :=
  "DEVICE SW1: SWITCH 0, SW2: SWITCH 1, G1: AND 2 INPUTS; " ++
    "CONNECT SW1 -> G1.I1, SW2 -> G1.I2; MONITOR G1;"

set_option smartUnfolding false in
/-- On the concrete valid input (spec §8, scenario 1), `parse_network()`
returns true, the Error Log is empty, devices SW1, SW2, G1 are created
(in order), two connections are made, and one monitor is registered for
G1 with no port — the happy path of the grammar-conformance claim. -/
theorem c1_valid_input_parses_and_populates_stores :
    (parseNetwork 300 c1Input).val? = some true ∧
    (parseNetwork 300 c1Input).state?.map PState.errors = some [] ∧
    (parseNetwork 300 c1Input).state?.map deviceNames =
      some [some "SW1", some "SW2", some "G1"] ∧
    (parseNetwork 300 c1Input).state?.map (fun st => st.net.connections.length) = some 2 ∧
    (parseNetwork 300 c1Input).state?.map
        (fun st => st.mons.map (fun m => (st.scan.names.get_name_string m.1, m.2))) =
      some [(some "G1", none)] :=
  ⟨rfl, rfl, rfl, rfl, rfl⟩

/-- The input of claim C4: two independently malformed devices (a switch
must be followed by 0 or 1), each ending at a comma or semicolon. -/
def c4Input : String :=
  "DEVICE A: SWITCH 5, B: SWITCH 7; CONNECT C1 -> C2.I1; MONITOR M;"

set_option smartUnfolding false in
/-- On the semicolon-terminated representative, the two malformed
devices produce two distinct diagnostics (both `DeviceDefinitionError`,
at the two distinct offending columns 19 and 32), not one; parsing then
proceeds through the connection list and reaches the monitor list — the
third diagnostic arises inside the connection item at column 43 and the
fourth inside the monitor item at column 64, which the parser only
reaches after recognising the `MONITOR` keyword.  The run ends at EOF
with `parse_network()` returning false. -/
theorem c4_two_malformed_devices_two_diagnostics :
    (parseNetwork 300 c4Input).val? = some false ∧
    (parseNetwork 300 c4Input).state?.map PState.errors =
      some [⟨ErrKind.DeviceDefinitionError, 1, 19⟩, ⟨ErrKind.DeviceDefinitionError, 1, 32⟩,
        ⟨ErrKind.DeviceReferenceError, 1, 43⟩, ⟨ErrKind.DeviceReferenceError, 1, 64⟩] ∧
    (parseNetwork 300 c4Input).state?.map (fun st => st.symbol.type) =
      some (some Scanner.EOF) :=
  ⟨rfl, rfl, rfl⟩

/-- A comment-free valid file: devicelist, connectionlist, monitorlist. -/
def c1CommentFreeInput : String :=
  "DEVICE SW1: SWITCH 0, G1: AND 2 INPUTS; CONNECT SW1 -> G1.I1; MONITOR G1;"

/-- The same file with a `comment` production inserted after the
connection list's semicolon — a position §4.3's grammar allows. -/
def c1TrailingCommentInput : String :=
  "DEVICE SW1: SWITCH 0, G1: AND 2 INPUTS; CONNECT SW1 -> G1.I1; / c / MONITOR G1;"

set_option smartUnfolding false in
/-- C1 (the code violates the claim): not every grammar-conforming input
parses with `True` and an empty log.  The comment-free file parses
cleanly, but inserting a closed comment after the connection list's
semicolon — a placement the grammar's optional `comment` production
allows — makes `parse_network()` return false with a
`MissingKeywordError`, because `_connectionlist` (parse.py line 148)
runs `_comment()` while the semicolon is still the current symbol and so
never consumes the comment. -/
theorem c1_grammar_conforming_input_rejected :
    (parseNetwork 300 c1CommentFreeInput).val? = some true ∧
    (parseNetwork 300 c1CommentFreeInput).state?.map PState.errors = some [] ∧
    (parseNetwork 300 c1TrailingCommentInput).val? = some false ∧
    (parseNetwork 300 c1TrailingCommentInput).state?.map PState.errors =
      some [⟨ErrKind.MissingKeywordError, 1, 64⟩] :=
  ⟨rfl, rfl, rfl, rfl⟩

/-- A file with a comment between the device list's semicolon and the
`CONNECT` keyword (the order `_next_symbol(); _comment()` consumes it). -/
def c8AfterDevicelist : String :=
  "DEVICE SW1: SWITCH 0, G1: AND 2 INPUTS; / c / CONNECT SW1 -> G1.I1; MONITOR G1;"

/-- The same file with the comment moved between the connection list's
semicolon and the `MONITOR` keyword. -/
def c8AfterConnectionlist : String :=
  "DEVICE SW1: SWITCH 0, G1: AND 2 INPUTS; CONNECT SW1 -> G1.I1; / c / MONITOR G1;"

set_option smartUnfolding false in
/-- C8 (the code violates the claim): a trailing comment after the
device list's semicolon is consumed and the file parses cleanly, but in
`_connectionlist` the source calls `_comment()` *before* advancing past
the semicolon (parse.py line 148), so the same comment placed after the
connection list's semicolon is not consumed: the monitor list then
starts at a slash symbol and a `MissingKeywordError` is recorded —
`parse_network()` returns false on an input the claim says parses with
no errors. -/
theorem c8_trailing_comment_after_connectionlist_fails :
    (parseNetwork 300 c8AfterDevicelist).val? = some true ∧
    (parseNetwork 300 c8AfterDevicelist).state?.map PState.errors = some [] ∧
    (parseNetwork 300 c8AfterConnectionlist).val? = some false ∧
    (parseNetwork 300 c8AfterConnectionlist).state?.map PState.errors =
      some [⟨ErrKind.MissingKeywordError, 1, 64⟩] :=
  ⟨rfl, rfl, rfl, rfl⟩

/-- C2: whenever `parse_network()` returns a boolean, that boolean is
exactly `no_errors()`, and `no_errors()` holds exactly when the log's
collection of diagnostics is empty: the result is false if and only if
at least one diagnostic was recorded during the parse. -/
theorem c2_result_iff_no_diagnostics (f : Nat) (t : String) (b : Bool) (st : PState)
    (h : parseNetwork f t = PRes.ok b st) :
    b = noErrors st.errors ∧ (b = true ↔ st.errors = []) := by
  unfold parseNetwork at h
  repeat' split at h
  any_goals exact PRes.noConfusion h
  injection h with h1 h2
  subst h1
  subst h2
  refine ⟨rfl, ?_⟩
  simp [noErrors, List.isEmpty_iff]

/-- A small valid input for the C2 witness. -/
def c2WitInput : String := "DEVICE A: XOR; CONNECT A -> A.I1; MONITOR A;"

/-- The final state of the witness run. -/
def c2WitState : PState :=
  (parseNetwork 100 c2WitInput).state?.getD (initPState "")

set_option smartUnfolding false in
/-- Witness for C2: the theorem applied to a concrete completed run. -/
theorem c2_result_iff_no_diagnostics_witness :
    true = noErrors c2WitState.errors ∧ (true = true ↔ c2WitState.errors = []) :=
  c2_result_iff_no_diagnostics 100 c2WitInput true c2WitState rfl

/-- The guard under which `Names.lookup` silently skips an element:
not a string, or whitespace-only per `str.isspace`. -/
def lookupSkips : PyObj → Bool
  | PyObj.nonStr => true
  | PyObj.str s => pyIsSpace s

theorem lookup_length_le (ns : Names) (l : List PyObj) :
    (ns.lookup l).1.length ≤ l.length := by
  induction l generalizing ns with
  | nil => simp [Names.lookup]
  | cons x xs ih =>
    cases x with
    | nonStr =>
      simp only [Names.lookup]
      exact le_trans (ih ns) (by simp)
    | str s =>
      by_cases hsp : pyIsSpace s
      · simp only [Names.lookup, hsp, if_true]
        exact le_trans (ih ns) (by simp)
      · rcases hidx : listIndexOf s ns.names with _ | i
        · rcases hres : Names.lookup { ns with names := ns.names ++ [s] } xs with ⟨ids, ns2⟩
          have := ih { ns with names := ns.names ++ [s] }
          rw [hres] at this
          simp only [Names.lookup, hsp, if_false, hidx, hres]
          simpa using Nat.succ_le_succ this
        · rcases hres : Names.lookup ns xs with ⟨ids, ns2⟩
          have := ih ns
          rw [hres] at this
          simp only [Names.lookup, hsp, if_false, hidx, hres]
          simpa using Nat.succ_le_succ this

theorem listIndexOf_some_mem (s : String) (l : List String) (i : Nat)
    (h : listIndexOf s l = some i) : s ∈ l := by
  induction l generalizing i with
  | nil => exact Option.noConfusion h
  | cons x xs ih =>
    by_cases hx : x = s
    · simp [hx]
    · simp only [listIndexOf, hx, if_false, Option.map_eq_some'] at h
      obtain ⟨j, hj, _⟩ := h
      exact List.mem_cons_of_mem x (ih j hj)

theorem lookup_skip_lt (l : List PyObj) :
    ∀ (ns : Names) (x : PyObj), x ∈ l → lookupSkips x = true →
      (ns.lookup l).1.length < l.length := by
  induction l with
  | nil =>
    intro ns x hmem _
    exact absurd hmem (List.not_mem_nil x)
  | cons y ys ih =>
    intro ns x hmem hskip
    rcases List.mem_cons.mp hmem with hxy | hmem2
    · subst hxy
      cases x with
      | nonStr =>
        simp only [Names.lookup, List.length_cons]
        exact Nat.lt_succ_of_le (lookup_length_le ns ys)
      | str s =>
        have hsp : pyIsSpace s = true := hskip
        simp only [Names.lookup, hsp, if_true, List.length_cons]
        exact Nat.lt_succ_of_le (lookup_length_le ns ys)
    · cases y with
      | nonStr =>
        simp only [Names.lookup, List.length_cons]
        exact Nat.lt_succ_of_lt (ih ns x hmem2 hskip)
      | str s =>
        by_cases hsp : pyIsSpace s
        · simp only [Names.lookup, hsp, if_true, List.length_cons]
          exact Nat.lt_succ_of_lt (ih ns x hmem2 hskip)
        · rcases hidx : listIndexOf s ns.names with _ | i
          · have h2 := ih { ns with names := ns.names ++ [s] } x hmem2 hskip
            simp only [Names.lookup, hsp, if_false, hidx, List.length_cons]
            simpa using Nat.succ_lt_succ h2
          · have h2 := ih ns x hmem2 hskip
            simp only [Names.lookup, hsp, if_false, hidx, List.length_cons]
            simpa using Nat.succ_lt_succ h2

/-- C10: `Names.lookup` silently skips elements that are not strings or
are whitespace-only — for a list containing such an element the returned
id list is strictly shorter than the input, and no error is signalled
(the model is a total function: the source's raising branches are
commented out) — while the empty string is accepted and interned with
its own identifier like any other string. -/
theorem c10_lookup_skips_nonstrings_accepts_empty (ns : Names) (l : List PyObj)
    (hx : ∃ x ∈ l, lookupSkips x = true) :
    (ns.lookup l).1.length < l.length ∧
    (ns.lookup [PyObj.str ""]).1.length = 1 ∧
    "" ∈ (ns.lookup [PyObj.str ""]).2.names := by
  obtain ⟨x, hmem, hskip⟩ := hx
  refine ⟨lookup_skip_lt l ns x hmem hskip, ?_, ?_⟩
  · have hsp : pyIsSpace "" = false := rfl
    rcases hidx : listIndexOf "" ns.names with _ | i <;>
      simp [Names.lookup, hsp, hidx]
  · have hsp : pyIsSpace "" = false := rfl
    rcases hidx : listIndexOf "" ns.names with _ | i
    · simp [Names.lookup, hsp, hidx]
    · simp only [Names.lookup, hsp, if_false, hidx]
      exact listIndexOf_some_mem _ _ _ hidx

/-! ### C6: creation calls are gated on an empty error log

Every trace entry records the number of diagnostics in the log at the
moment of the boundary call.  `TraceOk` says all recorded calls were
made with an empty log; the lemmas below push it through every parser
function. -/

/-- All boundary calls in the trace were made while the log was empty. -/
def TraceOk (l : List StoreCall) : Prop :=
  ∀ e ∈ l, e.errorsAtCall = 0

/-- `P` holds of the state of every non-`nofuel` outcome. -/
def PRes.SatState {α : Type} (P : PState → Prop) : PRes α → Prop
  | PRes.ok _ st => P st
  | PRes.exc _ st => P st
  | PRes.crash st => P st
  | PRes.nofuel => True

/-- `P` holds of the state of every non-`nofuel` try-body outcome. -/
def ConnTryRes.SatState (P : PState → Prop) : ConnTryRes → Prop
  | ConnTryRes.ok _ st => P st
  | ConnTryRes.exc _ st => P st
  | ConnTryRes.keyErr _ st => P st
  | ConnTryRes.crash st => P st
  | ConnTryRes.nofuel => True

theorem traceOk_nextSymbol (st : PState) (h : TraceOk st.calls) :
    TraceOk (nextSymbol st).calls := h

theorem traceOk_skipLoop (stops : List Nat) (f : Nat) (st : PState)
    (h : TraceOk st.calls) :
    (skipLoop stops f st).SatState (fun st' => TraceOk st'.calls) := by
  induction f generalizing st with
  | zero =>
    unfold skipLoop
    split
    · exact h
    · trivial
  | succ f ih =>
    unfold skipLoop
    split
    · exact h
    · exact ih (nextSymbol st) h

theorem traceOk_perror (e : ErrKind) (stops : List Nat) (f : Nat) (st : PState)
    (h : TraceOk st.calls) :
    (perror e stops f st).SatState (fun st' => TraceOk st'.calls) := by
  unfold perror
  exact traceOk_skipLoop stops f _ h

theorem traceOk_commentLoop (f : Nat) (st : PState) (h : TraceOk st.calls) :
    (commentLoop f st).SatState (fun st' => TraceOk st'.calls) := by
  induction f generalizing st with
  | zero =>
    unfold commentLoop
    split
    · exact h
    · trivial
  | succ f ih =>
    unfold commentLoop
    split
    · exact h
    · exact ih (nextSymbol st) h

theorem traceOk_comment (f : Nat) (st : PState) (h : TraceOk st.calls) :
    (comment f st).SatState (fun st' => TraceOk st'.calls) := by
  unfold comment
  split
  · have hl := traceOk_commentLoop f (nextSymbol st) h
    split <;> rename_i heq <;> rw [heq] at hl <;> first | exact hl | trivial
  · exact h

theorem traceOk_devicename (st : PState) (h : TraceOk st.calls) :
    (devicename st).SatState (fun st' => TraceOk st'.calls) := by
  unfold devicename
  split
  · exact h
  · split <;> exact h

theorem traceOk_outputname (st : PState) (h : TraceOk st.calls) :
    (outputname st).SatState (fun st' => TraceOk st'.calls) := by
  unfold outputname
  have hd := traceOk_devicename st h
  split <;> rename_i heq <;> rw [heq] at hd
  · dsimp only
    split
    · exact hd
    · split
      · split
        · split
          · exact hd
          · exact hd
        · exact hd
      · exact hd
  · exact hd
  · exact hd
  · trivial

theorem traceOk_inputname (st : PState) (h : TraceOk st.calls) :
    (inputname st).SatState (fun st' => TraceOk st'.calls) := by
  unfold inputname
  have hd := traceOk_devicename st h
  split <;> rename_i heq <;> rw [heq] at hd
  · dsimp only
    split
    · exact hd
    · split
      · split
        · split
          · exact hd
          · split
            · split
              · exact hd
              · exact hd
            · exact hd
        · exact hd
      · exact hd
  · exact hd
  · exact hd
  · trivial

theorem traceOk_deviceTryGateNumber (did : Nat) (kind : Option Nat) (st : PState)
    (h : TraceOk st.calls) :
    (deviceTryGateNumber did kind st).SatState (fun st' => TraceOk st'.calls) := by
  unfold deviceTryGateNumber
  dsimp only
  repeat' split
  all_goals exact h

set_option maxHeartbeats 1600000 in
theorem traceOk_deviceTry (st : PState) (h : TraceOk st.calls) :
    (deviceTry st).SatState (fun st' => TraceOk st'.calls) := by
  unfold deviceTry
  have hd := traceOk_devicename st h
  split <;> rename_i heq <;> rw [heq] at hd
  · dsimp only
    repeat' split
    all_goals first
      | exact hd
      | exact traceOk_deviceTryGateNumber _ _ _ hd
      | trivial
  · exact hd
  · exact hd
  · trivial

theorem traceOk_deviceCreate (vals : Option (Nat × Option Nat × Option Nat)) (st : PState)
    (h : TraceOk st.calls) :
    (deviceCreate vals st).SatState (fun st' => TraceOk st'.calls) := by
  unfold deviceCreate
  split
  · rename_i hemp
    split
    · rename_i did kind prop
      have hz : st.errors.length = 0 := by
        simp [List.isEmpty_iff.mp hemp]
      have happ : TraceOk (st.calls ++ [⟨CallKind.mkDevice, st.errors.length⟩]) := by
        intro e he
        rcases List.mem_append.mp he with hin | hin
        · exact h e hin
        · simp only [List.mem_singleton] at hin
          subst hin
          exact hz
      dsimp only
      split <;> exact happ
    · exact h
  · exact h

theorem traceOk_device (f : Nat) (st : PState) (h : TraceOk st.calls) :
    (device f st).SatState (fun st' => TraceOk st'.calls) := by
  unfold device
  have ht := traceOk_deviceTry st h
  split <;> rename_i heq <;> rw [heq] at ht
  · exact traceOk_deviceCreate _ _ ht
  · rename_i e1 st1
    have hp := traceOk_perror e1 [Scanner.COMMA, Scanner.SEMICOLON] f st1 ht
    split <;> rename_i heq2 <;> rw [heq2] at hp
    · exact traceOk_deviceCreate none _ hp
    · exact hp
    · exact hp
    · trivial
  · exact ht
  · trivial

theorem traceOk_connectionTry (st : PState) (h : TraceOk st.calls) :
    (connectionTry st).SatState (fun st' => TraceOk st'.calls) := by
  unfold connectionTry
  have ho := traceOk_outputname st h
  split <;> rename_i heq <;> rw [heq] at ho
  · split
    · have hi := traceOk_inputname (nextSymbol _) ho
      split <;> rename_i heq2 <;> rw [heq2] at hi
      · repeat' split
        all_goals first | exact hi | trivial
      · exact hi
      · exact hi
      · trivial
    · exact ho
  · exact ho
  · exact ho
  · trivial

theorem traceOk_connectionCreate (vals : Option (Nat × Nat × Nat × Option Nat)) (st : PState)
    (h : TraceOk st.calls) :
    (connectionCreate vals st).SatState (fun st' => TraceOk st'.calls) := by
  unfold connectionCreate
  split
  · rename_i hemp
    split
    · rename_i ind inp outd outp
      have hz : st.errors.length = 0 := by
        simp [List.isEmpty_iff.mp hemp]
      have happ : TraceOk (st.calls ++ [⟨CallKind.mkConnection, st.errors.length⟩]) := by
        intro e he
        rcases List.mem_append.mp he with hin | hin
        · exact h e hin
        · simp only [List.mem_singleton] at hin
          subst hin
          exact hz
      dsimp only
      split <;> exact happ
    · exact h
  · exact h

theorem traceOk_connection (f : Nat) (st : PState) (h : TraceOk st.calls) :
    (connection f st).SatState (fun st' => TraceOk st'.calls) := by
  unfold connection
  have ht := traceOk_connectionTry st h
  split <;> rename_i heq <;> rw [heq] at ht
  · exact traceOk_connectionCreate _ _ ht
  · rename_i e1 st1
    have hp := traceOk_perror e1 [Scanner.COMMA, Scanner.SEMICOLON] f st1 ht
    split <;> rename_i heq2 <;> rw [heq2] at hp
    · exact traceOk_connectionCreate none _ hp
    · exact hp
    · exact hp
    · trivial
  · rename_i vls st1
    have hc := traceOk_connectionCreate (some vls) st1 ht
    split
    · rename_i a2 st2 heq2
      rw [heq2] at hc
      exact hc
    · exact hc
  · rename_i st1
    have hc := traceOk_connectionCreate none st1 ht
    split
    · rename_i a2 st2 heq2
      rw [heq2] at hc
      exact hc
    · exact hc
  · trivial

theorem traceOk_monitorCreate (vals : Option (Nat × Option Nat)) (st : PState)
    (h : TraceOk st.calls) :
    (monitorCreate vals st).SatState (fun st' => TraceOk st'.calls) := by
  unfold monitorCreate
  split
  · rename_i hemp
    split
    · rename_i outd outp
      have hz : st.errors.length = 0 := by
        simp [List.isEmpty_iff.mp hemp]
      intro e he
      rcases List.mem_append.mp he with hin | hin
      · exact h e hin
      · simp only [List.mem_singleton] at hin
        subst hin
        exact hz
    · exact h
  · exact h

theorem traceOk_monitor (f : Nat) (st : PState) (h : TraceOk st.calls) :
    (monitor f st).SatState (fun st' => TraceOk st'.calls) := by
  unfold monitor
  have ho := traceOk_outputname st h
  split <;> rename_i heq <;> rw [heq] at ho
  · exact traceOk_monitorCreate _ _ ho
  · rename_i e1 st1
    have hp := traceOk_perror e1 [Scanner.COMMA, Scanner.SEMICOLON] f st1 ho
    split <;> rename_i heq2 <;> rw [heq2] at hp
    · exact traceOk_monitorCreate none _ hp
    · exact hp
    · exact hp
    · trivial
  · exact ho
  · trivial

theorem traceOk_devItemsLoop (f : Nat) (st : PState) (h : TraceOk st.calls) :
    (devItemsLoop f st).SatState (fun st' => TraceOk st'.calls) := by
  induction f generalizing st with
  | zero =>
    unfold devItemsLoop
    split
    · trivial
    · exact h
  | succ f ih =>
    unfold devItemsLoop
    split
    · have hc := traceOk_comment f (nextSymbol st) h
      split
      · rename_i a1 st1 heq
        rw [heq] at hc
        have hd := traceOk_device f st1 hc
        split
        · rename_i a2 st2 heq2
          rw [heq2] at hd
          exact ih st2 hd
        · exact hd
      · exact hc
    · exact h

theorem traceOk_connItemsLoop (f : Nat) (st : PState) (h : TraceOk st.calls) :
    (connItemsLoop f st).SatState (fun st' => TraceOk st'.calls) := by
  induction f generalizing st with
  | zero =>
    unfold connItemsLoop
    split
    · trivial
    · exact h
  | succ f ih =>
    unfold connItemsLoop
    split
    · have hc := traceOk_comment f (nextSymbol st) h
      split
      · rename_i a1 st1 heq
        rw [heq] at hc
        have hd := traceOk_connection f st1 hc
        split
        · rename_i a2 st2 heq2
          rw [heq2] at hd
          exact ih st2 hd
        · exact hd
      · exact hc
    · exact h

theorem traceOk_monItemsLoop (f : Nat) (st : PState) (h : TraceOk st.calls) :
    (monItemsLoop f st).SatState (fun st' => TraceOk st'.calls) := by
  induction f generalizing st with
  | zero =>
    unfold monItemsLoop
    split
    · trivial
    · exact h
  | succ f ih =>
    unfold monItemsLoop
    split
    · have hc := traceOk_comment f (nextSymbol st) h
      split
      · rename_i a1 st1 heq
        rw [heq] at hc
        have hd := traceOk_monitor f st1 hc
        split
        · rename_i a2 st2 heq2
          rw [heq2] at hd
          exact ih st2 hd
        · exact hd
      · exact hc
    · exact h

theorem traceOk_devicelistTry (f : Nat) (st : PState) (h : TraceOk st.calls) :
    (devicelistTry f st).SatState (fun st' => TraceOk st'.calls) := by
  unfold devicelistTry
  split
  · have hd := traceOk_device f (nextSymbol st) h
    split
    · rename_i a1 st1 heq
      rw [heq] at hd
      have hl := traceOk_devItemsLoop f st1 hd
      split
      · rename_i a2 st2 heq2
        rw [heq2] at hl
        split
        · exact traceOk_comment f (nextSymbol st2) hl
        · exact hl
      · exact hl
    · exact hd
  · exact h

theorem traceOk_devicelist (f : Nat) (st : PState) (h : TraceOk st.calls) :
    (devicelist f st).SatState (fun st' => TraceOk st'.calls) := by
  unfold devicelist
  have hb := traceOk_devicelistTry f st h
  split
  · rename_i e1 st1 heq
    rw [heq] at hb
    exact traceOk_perror e1 [Scanner.SEMICOLON] f st1 hb
  · exact hb
theorem traceOk_connectionlistTry (f : Nat) (st : PState) (h : TraceOk st.calls) :
    (connectionlistTry f st).SatState (fun st' => TraceOk st'.calls) := by
  unfold connectionlistTry
  split
  · have hd := traceOk_connection f (nextSymbol st) h
    split
    · rename_i a1 st1 heq
      rw [heq] at hd
      have hl := traceOk_connItemsLoop f st1 hd
      split
      · rename_i a2 st2 heq2
        rw [heq2] at hl
        split
        · have hc := traceOk_comment f st2 hl
          split
          · rename_i a3 st3 heq3
            rw [heq3] at hc
            exact hc
          · exact hc
        · exact hl
      · exact hl
    · exact hd
  · exact h

theorem traceOk_connectionlist (f : Nat) (st : PState) (h : TraceOk st.calls) :
    (connectionlist f st).SatState (fun st' => TraceOk st'.calls) := by
  unfold connectionlist
  have hb := traceOk_connectionlistTry f st h
  split
  · rename_i e1 st1 heq
    rw [heq] at hb
    exact traceOk_perror e1 [Scanner.SEMICOLON] f st1 hb
  · exact hb
theorem traceOk_monitorlistTry (f : Nat) (st : PState) (h : TraceOk st.calls) :
    (monitorlistTry f st).SatState (fun st' => TraceOk st'.calls) := by
  unfold monitorlistTry
  split
  · have hd := traceOk_monitor f (nextSymbol st) h
    split
    · rename_i a1 st1 heq
      rw [heq] at hd
      have hl := traceOk_monItemsLoop f st1 hd
      split
      · rename_i a2 st2 heq2
        rw [heq2] at hl
        split
        · have hc := traceOk_comment f st2 hl
          split
          · rename_i a3 st3 heq3
            rw [heq3] at hc
            exact hc
          · exact hc
        · exact hl
      · exact hl
    · exact hd
  · exact h

theorem traceOk_monitorlist (f : Nat) (st : PState) (h : TraceOk st.calls) :
    (monitorlist f st).SatState (fun st' => TraceOk st'.calls) := by
  unfold monitorlist
  have hb := traceOk_monitorlistTry f st h
  split
  · rename_i e1 st1 heq
    rw [heq] at hb
    exact traceOk_perror e1 [Scanner.SEMICOLON] f st1 hb
  · exact hb
theorem c6_creation_only_with_empty_log (f : Nat) (t : String) :
    ∀ e ∈ (parseNetwork f t).callsOf, e.errorsAtCall = 0 := by
  have h0 : TraceOk (nextSymbol (initPState t)).calls := by
    intro e he
    simp [nextSymbol, initPState] at he
  unfold parseNetwork
  have hd := traceOk_devicelist f (nextSymbol (initPState t)) h0
  split <;> rename_i heq <;> rw [heq] at hd
  · have hc := traceOk_connectionlist f _ hd
    split <;> rename_i heq2 <;> rw [heq2] at hc
    · have hm := traceOk_monitorlist f _ hc
      split <;> rename_i heq3 <;> rw [heq3] at hm
      · exact hm
      · exact hm
      · exact hm
      · intro e he
        exact absurd he (List.not_mem_nil e)
    · exact hc
    · exact hc
    · intro e he
      exact absurd he (List.not_mem_nil e)
  · exact hd
  · exact hd
  · intro e he
    exact absurd he (List.not_mem_nil e)

/-- Witness for C6: the single device-creation call of a one-device run
was made with an empty log. -/
theorem c6_creation_only_with_empty_log_witness :
    (⟨CallKind.mkDevice, 0⟩ : StoreCall).errorsAtCall = 0 :=
  c6_creation_only_with_empty_log 50 "DEVICE A: XOR;" ⟨CallKind.mkDevice, 0⟩
    (by decide)

/-! ### C3 and C7: the comment loop never checks for EOF

`Parser._comment`'s skip loop (parse.py line 442) runs `while
self.symbol.type != Scanner.SLASH` with no EOF test.  At end of file the
scanner returns EOF symbols forever, so on an input whose comment is
never closed the loop runs forever: in the fuel-indexed embedding, the
parse returns `nofuel` for every fuel. -/

theorem getSymbol_eof (s : ScanSt) (h : s.cur = Cur.eof) :
    getSymbol s =
      ({ type := some Scanner.EOF, id := none, line := s.line, col := s.col }, s) := by
  have hg : wsGuard s = false := by
    simp [wsGuard, h]
  have hws : skipWs s = s := by
    rw [skipWs_eq, hg]
    simp
  unfold getSymbol
  rw [hws]
  dsimp only
  rw [h]

/-- At end of file, `_next_symbol` leaves the scanner unchanged and the
current symbol is EOF: the parser state has reached a fixed point. -/
theorem nextSymbol_eof (st : PState) (h : st.scan.cur = Cur.eof) :
    nextSymbol st =
      { st with symbol :=
          { type := some Scanner.EOF, id := none, line := st.scan.line, col := st.scan.col } } := by
  unfold nextSymbol
  rw [getSymbol_eof st.scan h]

/-- The comment loop entered at end of file with a non-slash current
symbol exhausts any amount of fuel: the source loop never terminates. -/
theorem commentLoop_diverges (f : Nat) (st : PState) (h : st.scan.cur = Cur.eof)
    (hn : ¬st.symbol.type = some Scanner.SLASH) :
    commentLoop f st = PRes.nofuel := by
  induction f generalizing st with
  | zero =>
    unfold commentLoop
    rw [if_neg hn]
  | succ f ih =>
    unfold commentLoop
    rw [if_neg hn]
    apply ih
    · rw [nextSymbol_eof st h]
      exact h
    · rw [nextSymbol_eof st h]
      simp [Scanner.EOF, Scanner.SLASH]

theorem comment_nofuel (f : Nat) (st : PState)
    (h1 : st.symbol.type = some Scanner.SLASH)
    (h2 : (nextSymbol st).scan.cur = Cur.eof)
    (h3 : ¬(nextSymbol st).symbol.type = some Scanner.SLASH) :
    comment f st = PRes.nofuel := by
  unfold comment
  rw [if_pos h1, commentLoop_diverges f _ h2 h3]

theorem devItemsLoop_comment_nofuel (f : Nat) (st : PState)
    (hc : st.symbol.type = some Scanner.COMMA)
    (h : comment f (nextSymbol st) = PRes.nofuel) :
    devItemsLoop (f + 1) st = PRes.nofuel := by
  unfold devItemsLoop
  rw [if_pos hc, h]

theorem devicelistTry_nofuel (f : Nat) (st st1 : PState)
    (hkw : st.symbol.type = some Scanner.KEYWORD ∧
      st.symbol.id = st.scan.names.query "DEVICE")
    (hdev : device f (nextSymbol st) = PRes.ok () st1)
    (hloop : devItemsLoop f st1 = PRes.nofuel) :
    devicelistTry f st = PRes.nofuel := by
  unfold devicelistTry
  rw [if_pos hkw, hdev]
  dsimp only
  rw [hloop]

theorem devicelist_nofuel (f : Nat) (st : PState)
    (h : devicelistTry f st = PRes.nofuel) :
    devicelist f st = PRes.nofuel := by
  unfold devicelist
  rw [h]

theorem parseNetwork_nofuel (f : Nat) (t : String)
    (h : devicelist f (nextSymbol (initPState t)) = PRes.nofuel) :
    parseNetwork f t = PRes.nofuel := by
  unfold parseNetwork
  rw [h]

/-- The input of claim C3: a syntactically fine switch device and then a
comment that is never closed. -/
def c3Input : String := "DEVICE SW1: SWITCH 0, /"

/-- The parser state after the first device of `c3Input` has been parsed
and created, with the comma as current symbol (computed at fuel 1; this
path consumes no fuel). -/
def c3St1 : PState :=
  (device 1 (nextSymbol (nextSymbol (initPState c3Input)))).state?.getD (initPState "")

set_option smartUnfolding false in
/-- C3 (the code violates the claim): on an input whose trailing comment
is never closed, `parse_network()` does not complete at all — the
comment loop (parse.py line 442) has no EOF check and spins on the EOF
symbols the scanner returns forever, so the embedded run returns
`nofuel` for every fuel.  No boolean is ever returned, contradicting
"parsing ... continues, so parse_network() always completes normally and
returns a boolean". -/
theorem c3_unclosed_comment_never_returns (f : Nat) :
    parseNetwork f c3Input = PRes.nofuel := by
  cases f with
  | zero => rfl
  | succ f =>
    apply parseNetwork_nofuel
    apply devicelist_nofuel
    apply devicelistTry_nofuel (f + 1) _ c3St1
    · exact ⟨rfl, rfl⟩
    · rfl
    · apply devItemsLoop_comment_nofuel
      · rfl
      · apply comment_nofuel
        · rfl
        · rfl
        · decide

/-- The input of claim C7: a clock device and then an unclosed comment. -/
def c7Input : String := "DEVICE CLK1: CLOCK 5, /"

/-- The parser state after the clock device of `c7Input` has been parsed
and created, with the comma as current symbol. -/
def c7St1 : PState :=
  (device 1 (nextSymbol (nextSymbol (initPState c7Input)))).state?.getD (initPState "")

set_option smartUnfolding false in
/-- C7 (the code violates the claim): `parse_network()` does not
terminate on every finite input.  The error-recovery loop does stop at
EOF (parse.py line 87 adds `Scanner.EOF` to every stopping set), but
comment skipping does not stop at end of input: the loop at parse.py
line 442 tests only for a slash, so an unclosed comment makes the parse
consume EOF symbols forever — the embedded run returns `nofuel` for
every fuel. -/
theorem c7_unclosed_comment_nonterminating (f : Nat) :
    parseNetwork f c7Input = PRes.nofuel := by
  cases f with
  | zero => rfl
  | succ f =>
    apply parseNetwork_nofuel
    apply devicelist_nofuel
    apply devicelistTry_nofuel (f + 1) _ c7St1
    · exact ⟨rfl, rfl⟩
    · rfl
    · apply devItemsLoop_comment_nofuel
      · rfl
      · apply comment_nofuel
        · rfl
        · rfl
        · decide

/-! ### C4's universal reading fails: diagnostics recorded, then a hang

The reviewer-visible counterexample to "for every input with two
independently malformed devices ... parsing continues to the monitor
list": both diagnostics are recorded, but an unclosed comment after the
second device's comma traps the parse in `_comment`'s EOF-less loop. -/

def c4hInput : String := "DEVICE A: SWITCH 5, B: SWITCH 7, / MONITOR M;"

def c4hG1A : PState := nextSymbol (nextSymbol (initPState c4hInput))

def c4hErrA : PState := (deviceTry c4hG1A).state?.getD (initPState "")

def c4hSt1 : PState := (device 1 c4hG1A).state?.getD (initPState "")

def c4hB : PState := nextSymbol c4hSt1

def c4hErrB : PState := (deviceTry c4hB).state?.getD (initPState "")

def c4hSt2 : PState := (device 1 c4hB).state?.getD (initPState "")

def c4hSlash : PState := nextSymbol c4hSt2

def c4hCm1 : PState := nextSymbol c4hSlash

def c4hCm2 : PState := nextSymbol c4hCm1

def c4hCm3 : PState := nextSymbol c4hCm2

theorem skipLoop_stop (stops : List Nat) (f : Nat) (st : PState)
    (h : st.symbol.type ∈ (stops ++ [Scanner.EOF]).map some) :
    skipLoop stops f st = PRes.ok () st := by
  cases f with
  | zero =>
    unfold skipLoop
    rw [if_pos h]
  | succ f =>
    unfold skipLoop
    rw [if_pos h]

theorem perror_stop (e : ErrKind) (stops : List Nat) (f : Nat) (st st1 : PState)
    (h1 : nextSymbol { st with errors := st.errors ++ [⟨e, st.symbol.line, st.symbol.col⟩] } = st1)
    (h2 : st1.symbol.type ∈ (stops ++ [Scanner.EOF]).map some) :
    perror e stops f st = PRes.ok () st1 := by
  unfold perror
  show skipLoop stops f
      (nextSymbol { st with errors := st.errors ++ [⟨e, st.symbol.line, st.symbol.col⟩] }) =
    PRes.ok () st1
  rw [h1]
  exact skipLoop_stop stops f st1 h2

theorem device_exc_recovers (f : Nat) (st stE st1 : PState) (e : ErrKind)
    (hTry : deviceTry st = PRes.exc e stE)
    (hPerr : perror e [Scanner.COMMA, Scanner.SEMICOLON] f stE = PRes.ok () st1)
    (hne : ¬st1.errors.isEmpty) :
    device f st = PRes.ok () st1 := by
  unfold device
  rw [hTry]
  simp only [hPerr]
  simp only [deviceCreate]
  rw [if_neg hne]

set_option smartUnfolding false in
theorem c4h_deviceA (f : Nat) : device f c4hG1A = PRes.ok () c4hSt1 :=
  device_exc_recovers f c4hG1A c4hErrA c4hSt1 ErrKind.DeviceDefinitionError rfl
    (perror_stop ErrKind.DeviceDefinitionError [Scanner.COMMA, Scanner.SEMICOLON] f
      c4hErrA c4hSt1 rfl (by decide))
    (by decide)

set_option smartUnfolding false in
theorem c4h_deviceB (f : Nat) : device f c4hB = PRes.ok () c4hSt2 :=
  device_exc_recovers f c4hB c4hErrB c4hSt2 ErrKind.DeviceDefinitionError rfl
    (perror_stop ErrKind.DeviceDefinitionError [Scanner.COMMA, Scanner.SEMICOLON] f
      c4hErrB c4hSt2 rfl (by decide))
    (by decide)

set_option smartUnfolding false in
theorem c4h_commentLoop (f : Nat) : commentLoop f c4hCm1 = PRes.nofuel := by
  cases f with
  | zero => rfl
  | succ f1 =>
    rw [show commentLoop (f1 + 1) c4hCm1 = commentLoop f1 c4hCm2 from rfl]
    cases f1 with
    | zero => rfl
    | succ f2 =>
      rw [show commentLoop (f2 + 1) c4hCm2 = commentLoop f2 c4hCm3 from rfl]
      exact commentLoop_diverges f2 c4hCm3 rfl (by decide)

set_option smartUnfolding false in
theorem c4h_comment (f : Nat) : comment f c4hSlash = PRes.nofuel := by
  unfold comment
  rw [if_pos (show c4hSlash.symbol.type = some Scanner.SLASH from rfl)]
  rw [show nextSymbol c4hSlash = c4hCm1 from rfl]
  rw [c4h_commentLoop f]

set_option smartUnfolding false in
theorem c4h_items2 (f : Nat) : devItemsLoop f c4hSt2 = PRes.nofuel := by
  cases f with
  | zero =>
    unfold devItemsLoop
    rw [if_pos (show c4hSt2.symbol.type = some Scanner.COMMA from rfl)]
  | succ f1 =>
    unfold devItemsLoop
    rw [if_pos (show c4hSt2.symbol.type = some Scanner.COMMA from rfl)]
    rw [show nextSymbol c4hSt2 = c4hSlash from rfl]
    rw [c4h_comment f1]

theorem devItemsLoop_step (f : Nat) (st st1 st2 : PState)
    (hc : st.symbol.type = some Scanner.COMMA)
    (hcm : comment f (nextSymbol st) = PRes.ok () st1)
    (hdev : device f st1 = PRes.ok () st2) :
    devItemsLoop (f + 1) st = devItemsLoop f st2 := by
  unfold devItemsLoop
  rw [if_pos hc, hcm]
  simp only [hdev]
  exact devItemsLoop.eq_def f st2

set_option smartUnfolding false in
theorem c4h_items1 (f : Nat) : devItemsLoop f c4hSt1 = PRes.nofuel := by
  cases f with
  | zero =>
    unfold devItemsLoop
    rw [if_pos (show c4hSt1.symbol.type = some Scanner.COMMA from rfl)]
  | succ f1 =>
    rw [devItemsLoop_step f1 c4hSt1 c4hB c4hSt2
      (show c4hSt1.symbol.type = some Scanner.COMMA from rfl) rfl (c4h_deviceB f1)]
    exact c4h_items2 f1

set_option smartUnfolding false in
/-- C4 (the code violates the claim): not every input whose device list
contains two independently malformed devices records its two diagnostics
and continues to the monitor list.  On this input both malformed
switches do record their `DeviceDefinitionError`s (at the distinct
columns 19 and 32, recovery resynchronising at each comma), but the
comma is followed by the grammar's optional comment, which is never
closed: `_comment`'s loop (parse.py line 442) has no EOF test, so
`parse_network()` never returns — the embedded run is `nofuel` for every
fuel, and the monitor list is never reached. -/
theorem c4_two_malformed_then_unclosed_comment_hangs :
    (∀ f, parseNetwork f c4hInput = PRes.nofuel) ∧
    c4hSt2.errors = [⟨ErrKind.DeviceDefinitionError, 1, 19⟩,
      ⟨ErrKind.DeviceDefinitionError, 1, 32⟩] := by
  constructor
  · intro f
    apply parseNetwork_nofuel
    apply devicelist_nofuel
    apply devicelistTry_nofuel f _ c4hSt1
    · exact ⟨rfl, rfl⟩
    · exact c4h_deviceA f
    · exact c4h_items1 f
  · rfl

/-! ### C9: symbol positions and the first-line column offset

Every returned Symbol does carry the cursor position of the first
character of its lexeme, but the columns do not follow one uniform
convention: `Scanner.__init__` starts the column at 1 and `_advance`
increments it *before* reading, while a newline resets it to 0 — so the
n-th character of the first line is at column n+1, whereas the n-th
character of every later line is at column n. -/

/-- Collect the symbols of an input, up to and including the first EOF
symbol (fuel-bounded). -/
def scanSymbols : Nat → ScanSt → List Symbol
  | 0, _ => []
  | f + 1, s =>
    match getSymbol s with
    | (sym, s') =>
      if sym.type = some Scanner.EOF then [sym] else sym :: scanSymbols f s'

/-- `k` applications of `Scanner._advance` from the initial state. -/
def advanceN (s : ScanSt) : Nat → ScanSt
  | 0 => s
  | k + 1 => (advanceN s k).advance

/-- Number of newline characters. -/
def countNL (l : List Char) : Nat :=
  l.countP (fun c => c == '\n')

/-- Number of characters after the last newline (the whole list when it
has no newline). -/
def sinceNL (l : List Char) : Nat :=
  (l.reverse.takeWhile (fun c => c != '\n')).length

theorem countNL_concat (l : List Char) (c : Char) :
    countNL (l ++ [c]) = countNL l + (if c = '\n' then 1 else 0) := by
  by_cases hc : c = '\n' <;>
    simp [countNL, List.countP_append, List.countP_cons, hc]

theorem sinceNL_concat_nl (l : List Char) : sinceNL (l ++ ['\n']) = 0 := by
  simp [sinceNL, List.reverse_append, List.takeWhile_cons]

theorem sinceNL_concat_ne (l : List Char) (c : Char) (h : ¬c = '\n') :
    sinceNL (l ++ [c]) = sinceNL l + 1 := by
  simp [sinceNL, List.reverse_append, List.takeWhile_cons, h]

theorem take_concat_getElem (l : List Char) (k : Nat) (hk : k < l.length) :
    l.take (k + 1) = l.take k ++ [l[k]] := by
  rw [List.take_succ, List.getElem?_eq_getElem hk]
  rfl

/-- The cursor after `k` characters of input: the line counter is one
more than the number of newlines read; the column is `k + 1` while still
on the first line, and otherwise the number of characters read since the
last newline (0 right at the newline, 1 at the first character of the
new line). -/
theorem advanceN_cursor (t : String) (ns : Names) :
    ∀ k, k ≤ t.toList.length →
      (advanceN (initScan t ns) k).text = t.toList.drop k ∧
      (advanceN (initScan t ns) k).line = 1 + countNL (t.toList.take k) ∧
      (advanceN (initScan t ns) k).col =
        (if countNL (t.toList.take k) = 0 then k + 1 else sinceNL (t.toList.take k)) := by
  intro k
  induction k with
  | zero =>
    intro _
    refine ⟨rfl, ?_, ?_⟩ <;> simp [advanceN, initScan, countNL]
  | succ k ih =>
    intro hk1
    have hk : k < t.toList.length := Nat.lt_of_succ_le hk1
    obtain ⟨ht, hl, hc⟩ := ih (Nat.le_of_lt hk)
    have hstep : advanceN (initScan t ns) (k + 1) =
        (advanceN (initScan t ns) k).advance := rfl
    have hdrop : t.toList.drop k = t.toList[k] :: t.toList.drop (k + 1) :=
      List.drop_eq_getElem_cons hk
    have htake : t.toList.take (k + 1) = t.toList.take k ++ [t.toList[k]] :=
      take_concat_getElem _ _ hk
    rw [hstep]
    unfold ScanSt.advance
    rw [ht, hdrop]
    dsimp only
    by_cases hnl : t.toList[k] = '\n'
    · rw [if_pos hnl]
      have hcnt1 : countNL (t.toList.take (k + 1)) = countNL (t.toList.take k) + 1 := by
        rw [htake, countNL_concat, if_pos hnl]
      have hs : sinceNL (t.toList.take (k + 1)) = 0 := by
        have hx : t.toList.take k ++ [t.toList[k]] = t.toList.take k ++ ['\n'] := by
          rw [hnl]
        rw [htake, hx, sinceNL_concat_nl]
      refine ⟨rfl, ?_, ?_⟩
      · dsimp only
        rw [hl, hcnt1]
        omega
      · dsimp only
        rw [hcnt1, if_neg (Nat.succ_ne_zero _), hs]
    · rw [if_neg hnl]
      have hcnt0 : countNL (t.toList.take (k + 1)) = countNL (t.toList.take k) := by
        rw [htake, countNL_concat, if_neg hnl]
        omega
      refine ⟨rfl, ?_, ?_⟩
      · dsimp only
        rw [hl, hcnt0]
      · dsimp only
        rw [hc, hcnt0]
        by_cases h0 : countNL (t.toList.take k) = 0
        · rw [if_pos h0, if_pos h0]
        · rw [if_neg h0, if_neg h0]
          rw [htake, sinceNL_concat_ne _ _ hnl]

/-- Every branch of `get_symbol` stamps the symbol with the cursor
position reached after whitespace skipping, i.e. the position of the
first character of the lexeme. -/
theorem getSymbol_pos (s : ScanSt) :
    (getSymbol s).1.line = (skipWs s).line ∧ (getSymbol s).1.col = (skipWs s).col := by
  unfold getSymbol
  dsimp only
  repeat' split
  all_goals exact ⟨rfl, rfl⟩

/-- C9, amended: every returned Symbol carries the cursor position at
its first character, and the cursor obeys: line = 1 + number of newlines
read; a newline resets the column to 0 so the n-th character of a later
line has column n, but the initial column is 1 and is incremented before
each read, so the n-th character of the *first* line has column n + 1 —
the first line is offset by one relative to all later lines, instead of
one uniform convention. -/
theorem c9_cursor_tracking_first_line_offset (t : String) (ns : Names) (k : Nat)
    (hk : k ≤ t.toList.length) :
    ((advanceN (initScan t ns) k).line = 1 + countNL (t.toList.take k) ∧
      (advanceN (initScan t ns) k).col =
        (if countNL (t.toList.take k) = 0 then k + 1 else sinceNL (t.toList.take k))) ∧
    (∀ s : ScanSt, (getSymbol s).1.line = (skipWs s).line ∧
      (getSymbol s).1.col = (skipWs s).col) :=
  ⟨⟨(advanceN_cursor t ns k hk).2.1, (advanceN_cursor t ns k hk).2.2⟩, getSymbol_pos⟩

set_option smartUnfolding false in
/-- Witness for the amended C9 at the two-line input `"A\nB"` read to
its end. -/
theorem c9_cursor_tracking_first_line_offset_witness :
    (advanceN (initScan "A\nB" ⟨[], 0⟩) 3).line = 1 + countNL ("A\nB".toList.take 3) ∧
    (advanceN (initScan "A\nB" ⟨[], 0⟩) 3).col =
      (if countNL ("A\nB".toList.take 3) = 0 then 3 + 1
        else sinceNL ("A\nB".toList.take 3)) :=
  (c9_cursor_tracking_first_line_offset "A\nB" ⟨[], 0⟩ 3 (by decide)).1

set_option smartUnfolding false in
/-- Counterexample to C9 as stated: under one uniform column convention
that restarts at each line, the first character of line 1 and the first
character of line 2 would carry the same column value `b`; scanning
`"A\nB"` yields the symbol positions (1, 2) and (2, 1), so no such `b`
exists. -/
theorem c9_counterexample_first_line_offset :
    ¬ ∃ b : Nat,
      ((scanSymbols 5 (initScan "A\nB" ⟨[], 0⟩)).map (fun s => (s.line, s.col))).take 2 =
        [(1, b), (2, b)] := by
  rintro ⟨b, hb⟩
  have hval :
      ((scanSymbols 5 (initScan "A\nB" ⟨[], 0⟩)).map (fun s => (s.line, s.col))).take 2 =
        [(1, 2), (2, 1)] := rfl
  rw [hval] at hb
  have h1 : (2 : Nat) = b := congrArg Prod.snd (List.head_eq_of_cons_eq hb)
  have h2 : (1 : Nat) = b := by
    have := List.tail_eq_of_cons_eq hb
    exact congrArg Prod.snd (List.head_eq_of_cons_eq this)
  omega

/-- Witness for C10: a list with an interned name, a non-string and a
whitespace-only string yields two ids for three elements. -/
theorem c10_lookup_skips_nonstrings_accepts_empty_witness :
    ((⟨["Toby"], 0⟩ : Names).lookup
        [PyObj.str "Toby", PyObj.nonStr, PyObj.str " "]).1.length < 3 ∧
    ((⟨["Toby"], 0⟩ : Names).lookup [PyObj.str ""]).1.length = 1 ∧
    "" ∈ ((⟨["Toby"], 0⟩ : Names).lookup [PyObj.str ""]).2.names :=
  c10_lookup_skips_nonstrings_accepts_empty ⟨["Toby"], 0⟩ _
    ⟨PyObj.nonStr, by decide, rfl⟩


/-! ### C5: the generic-gate input-count bound `1 < n <= 16`

The input `DEVICE G1: AND <digits> INPUTS;` is followed through the
parser for an arbitrary non-empty decimal digit string.  The scanner
steps are settled one symbol at a time against literal parser states (the
digit string rides along as a symbolic suffix of the unread text), the
digit run itself by induction (`getNum_run`), and the bound test of
`deviceTryGateNumber` is the only branch that depends on the value. -/

theorem digit_ne_newline (c : Char) (h : isDigitChar c = true) : ¬(c = '\n') := by
  intro hc
  rw [hc] at h
  exact absurd h (by decide)

theorem digit_isSpace_false (c : Char) (h : isDigitChar c = true) : isSpaceChar c = false := by
  cases hsp : isSpaceChar c with
  | false => rfl
  | true =>
    exfalso
    simp only [isSpaceChar, Bool.or_eq_true, decide_eq_true_eq] at hsp
    rcases hsp with ((((h1 | h1) | h1) | h1) | h1) | h1 <;>
      rw [h1] at h <;> exact absurd h (by decide)

theorem digit_isAlpha_false (c : Char) (h : isDigitChar c = true) : isAlphaChar c = false := by
  cases hal : isAlphaChar c with
  | false => rfl
  | true =>
    exfalso
    simp only [isDigitChar, Bool.and_eq_true, decide_eq_true_eq] at h
    simp only [isAlphaChar, Bool.or_eq_true, Bool.and_eq_true, decide_eq_true_eq] at hal
    rcases hal with ⟨ha, _⟩ | ⟨hA, _⟩
    · exact absurd (le_trans ha h.2) (by decide)
    · exact absurd (le_trans hA h.2) (by decide)

theorem getNum_run (ds : List Char) :
    ∀ (d : Char) (acc : Nat) (r : List Char) (line col : Nat) (ns : Names),
      isDigitChar d = true → (∀ c ∈ ds, isDigitChar c = true) →
      getNum acc ⟨ds ++ (' ' :: r), Cur.ch d, line, col, ns⟩ =
        (List.foldl (fun a c => a * 10 + (c.toNat - Char.toNat '0')) acc (d :: ds),
         ⟨r, Cur.ch ' ', line, col + ds.length + 1, ns⟩) := by
  induction ds with
  | nil =>
    intro d acc r line col ns hd _
    rw [getNum_eq]
    dsimp only
    rw [if_pos hd]
    show getNum (acc * 10 + (d.toNat - Char.toNat '0'))
        ⟨r, Cur.ch ' ', line, col + 1, ns⟩ = _
    rw [getNum_eq]
    rfl
  | cons c2 ds2 ih =>
    intro d acc r line col ns hd hall
    rw [getNum_eq]
    dsimp only
    rw [if_pos hd]
    have hc2 : isDigitChar c2 = true := hall c2 (List.mem_cons_self c2 ds2)
    show getNum (acc * 10 + (d.toNat - Char.toNat '0'))
        (ScanSt.advance ⟨c2 :: (ds2 ++ (' ' :: r)), Cur.ch d, line, col, ns⟩) = _
    unfold ScanSt.advance
    dsimp only
    rw [if_neg (digit_ne_newline c2 hc2)]
    rw [ih c2 _ r line (col + 1) ns hc2 (fun c hc => hall c (List.mem_cons_of_mem c2 hc))]
    simp only [Prod.mk.injEq, ScanSt.mk.injEq, List.length_cons, List.foldl_cons,
      true_and, and_true]
    omega

def gateCountInput (ds : List Char) : String :=
  "DEVICE G1: AND " ++ ds.asString ++ " INPUTS;"

def c5Names : Names :=
  ⟨["AND", "OR", "NAND", "NOR", "XOR", "CLOCK", "SWITCH", "DTYPE", "NOT", "DATA",
    "CLK", "SET", "CLEAR", "Q", "QBAR", "DEVICE", "CONNECT", "MONITOR", "INPUTS", "G1"], 0⟩

def c5Dev : DevStore :=
  ⟨0, 1, 2, 3, 4, 5, 6, 7, 8, [9, 10, 11, 12], [13, 14], []⟩

def digitsVal (ds : List Char) : Nat :=
  ds.foldl (fun a c => a * 10 + (c.toNat - Char.toNat '0')) 0

def c5StAtNum (n c : Nat) : PState :=
  { scan := ⟨"INPUTS;".toList, Cur.ch ' ', 1, c, c5Names⟩
    symbol := { type := some Scanner.NUMBER, id := some n, line := 1, col := 17 }
    dev := c5Dev
    net := ⟨[]⟩
    mons := []
    errors := []
    calls := [] }

def c5Names0 : Names :=
  ⟨["AND", "OR", "NAND", "NOR", "XOR", "CLOCK", "SWITCH", "DTYPE", "NOT", "DATA",
    "CLK", "SET", "CLEAR", "Q", "QBAR", "DEVICE", "CONNECT", "MONITOR", "INPUTS"], 0⟩

def c5LitDev (ds : List Char) : PState :=
  { scan := ⟨'G' :: '1' :: ':' :: ' ' :: 'A' :: 'N' :: 'D' :: ' ' :: (ds ++ " INPUTS;".toList),
             Cur.ch ' ', 1, 8, c5Names0⟩
    symbol := { type := some Scanner.KEYWORD, id := some 15, line := 1, col := 2 }
    dev := c5Dev
    net := ⟨[]⟩
    mons := []
    errors := []
    calls := [] }

def c5LitG1 (ds : List Char) : PState :=
  { scan := ⟨' ' :: 'A' :: 'N' :: 'D' :: ' ' :: (ds ++ " INPUTS;".toList),
             Cur.ch ':', 1, 11, c5Names⟩
    symbol := { type := some Scanner.NAME, id := some 19, line := 1, col := 9 }
    dev := c5Dev
    net := ⟨[]⟩
    mons := []
    errors := []
    calls := [] }

def c5LitColon (ds : List Char) : PState :=
  { scan := ⟨'A' :: 'N' :: 'D' :: ' ' :: (ds ++ " INPUTS;".toList),
             Cur.ch ' ', 1, 12, c5Names⟩
    symbol := { type := some Scanner.COLON, id := none, line := 1, col := 11 }
    dev := c5Dev
    net := ⟨[]⟩
    mons := []
    errors := []
    calls := [] }

def c5LitAnd (ds : List Char) : PState :=
  { scan := ⟨ds ++ " INPUTS;".toList, Cur.ch ' ', 1, 16, c5Names⟩
    symbol := { type := some Scanner.NAME, id := some 0, line := 1, col := 13 }
    dev := c5Dev
    net := ⟨[]⟩
    mons := []
    errors := []
    calls := [] }

def c5SemiSt (x y : Nat) (ns : Names) (dev : DevStore) (errs : List Diag)
    (cs : List StoreCall) : PState :=
  { scan := ⟨[], Cur.eof, 1, x, ns⟩
    symbol := { type := some Scanner.SEMICOLON, id := none, line := 1, col := y }
    dev := dev
    net := ⟨[]⟩
    mons := []
    errors := errs
    calls := cs }

def c5EofSt (x : Nat) (ns : Names) (dev : DevStore) (errs : List Diag)
    (cs : List StoreCall) : PState :=
  { scan := ⟨[], Cur.eof, 1, x, ns⟩
    symbol := { type := some Scanner.EOF, id := none, line := 1, col := x }
    dev := dev
    net := ⟨[]⟩
    mons := []
    errors := errs
    calls := cs }

def c5MkDev (n : Nat) : Nat × DevStore × Names :=
  c5Dev.make_device c5Names (some 19) (some 0) (some n)

set_option smartUnfolding false in
set_option maxHeartbeats 1000000 in
theorem c5_scan1 (ds : List Char) :
    nextSymbol (initPState (gateCountInput ds)) = c5LitDev ds := rfl

set_option smartUnfolding false in
set_option maxHeartbeats 1000000 in
theorem c5_scan2 (ds : List Char) :
    nextSymbol (c5LitDev ds) = c5LitG1 ds := rfl

set_option smartUnfolding false in
set_option maxHeartbeats 1000000 in
theorem c5_scan3 (ds : List Char) :
    nextSymbol (c5LitG1 ds) = c5LitColon ds := rfl

set_option smartUnfolding false in
set_option maxHeartbeats 1000000 in
theorem c5_scan4 (ds : List Char) :
    nextSymbol (c5LitColon ds) = c5LitAnd ds := rfl

set_option smartUnfolding false in
set_option maxHeartbeats 1000000 in
theorem c5_number_step (d : Char) (ds2 : List Char) (hd : isDigitChar d = true)
    (hall : ∀ c ∈ ds2, isDigitChar c = true) :
    nextSymbol (c5LitAnd (d :: ds2)) =
      c5StAtNum (digitsVal (d :: ds2)) (17 + ds2.length + 1) := by
  unfold c5LitAnd nextSymbol
  have hadv : ScanSt.advance ⟨(d :: ds2) ++ " INPUTS;".toList, Cur.ch ' ', 1, 16, c5Names⟩ =
      ⟨ds2 ++ " INPUTS;".toList, Cur.ch d, 1, 17, c5Names⟩ := by
    show (if d = '\n' then (⟨ds2 ++ " INPUTS;".toList, Cur.ch d, 1 + 1, 0, c5Names⟩ : ScanSt)
        else ⟨ds2 ++ " INPUTS;".toList, Cur.ch d, 1, 16 + 1, c5Names⟩) =
      ⟨ds2 ++ " INPUTS;".toList, Cur.ch d, 1, 17, c5Names⟩
    rw [if_neg (digit_ne_newline d hd)]
  have hskip : skipWs ⟨(d :: ds2) ++ " INPUTS;".toList, Cur.ch ' ', 1, 16, c5Names⟩ =
      ⟨ds2 ++ " INPUTS;".toList, Cur.ch d, 1, 17, c5Names⟩ := by
    rw [skipWs_eq]
    rw [if_pos (show wsGuard ⟨(d :: ds2) ++ " INPUTS;".toList, Cur.ch ' ', 1, 16, c5Names⟩ = true
      from rfl)]
    rw [hadv, skipWs_eq]
    rw [if_neg (by simp [wsGuard, digit_isSpace_false d hd])]
  dsimp only
  unfold getSymbol
  rw [hskip]
  dsimp only
  rw [digit_isAlpha_false d hd]
  rw [if_neg (by simp)]
  rw [if_pos hd]
  have hrun := getNum_run ds2 d 0 ("INPUTS;".toList) 1 17 c5Names hd hall
  have hq : (ds2 ++ (' ' :: "INPUTS;".toList) : List Char) = ds2 ++ " INPUTS;".toList := rfl
  rw [hq] at hrun
  rw [hrun]
  rfl


set_option smartUnfolding false in
set_option maxHeartbeats 1000000 in
theorem c5_deviceTry_split (ds : List Char) :
    deviceTry (c5LitG1 ds) =
      deviceTryGateNumber 19 (some 0) (nextSymbol (c5LitAnd ds)) := by
  unfold deviceTry
  rw [show devicename (c5LitG1 ds) = PRes.ok 19 (c5LitG1 ds) from rfl]
  show (if (nextSymbol (c5LitG1 ds)).symbol.type = some Scanner.COLON then
      if (nextSymbol (nextSymbol (c5LitG1 ds))).symbol.type = some Scanner.NAME ∧
          (nextSymbol (nextSymbol (c5LitG1 ds))).symbol.id = some (nextSymbol (nextSymbol (c5LitG1 ds))).dev.SWITCH then
        if (nextSymbol (nextSymbol (nextSymbol (c5LitG1 ds)))).symbol.type = some Scanner.NUMBER ∧
            ((nextSymbol (nextSymbol (nextSymbol (c5LitG1 ds)))).symbol.id = some 0 ∨
              (nextSymbol (nextSymbol (nextSymbol (c5LitG1 ds)))).symbol.id = some 1) then
          PRes.ok (19, (nextSymbol (nextSymbol (c5LitG1 ds))).symbol.id, (nextSymbol (nextSymbol (nextSymbol (c5LitG1 ds)))).symbol.id)
            (nextSymbol (nextSymbol (nextSymbol (nextSymbol (c5LitG1 ds)))))
        else PRes.exc ErrKind.DeviceDefinitionError (nextSymbol (nextSymbol (nextSymbol (c5LitG1 ds))))
      else if (nextSymbol (nextSymbol (c5LitG1 ds))).symbol.type = some Scanner.NAME ∧
          (nextSymbol (nextSymbol (c5LitG1 ds))).symbol.id = some (nextSymbol (nextSymbol (c5LitG1 ds))).dev.CLOCK then
        if (nextSymbol (nextSymbol (nextSymbol (c5LitG1 ds)))).symbol.type = some Scanner.NUMBER then
          PRes.ok (19, (nextSymbol (nextSymbol (c5LitG1 ds))).symbol.id, (nextSymbol (nextSymbol (nextSymbol (c5LitG1 ds)))).symbol.id)
            (nextSymbol (nextSymbol (nextSymbol (nextSymbol (c5LitG1 ds)))))
        else PRes.exc ErrKind.DeviceDefinitionError (nextSymbol (nextSymbol (nextSymbol (c5LitG1 ds))))
      else if (nextSymbol (nextSymbol (c5LitG1 ds))).symbol.type = some Scanner.NAME ∧
          ((nextSymbol (nextSymbol (c5LitG1 ds))).symbol.id = some (nextSymbol (nextSymbol (c5LitG1 ds))).dev.D_TYPE ∨
            (nextSymbol (nextSymbol (c5LitG1 ds))).symbol.id = some (nextSymbol (nextSymbol (c5LitG1 ds))).dev.NOT ∨
            (nextSymbol (nextSymbol (c5LitG1 ds))).symbol.id = some (nextSymbol (nextSymbol (c5LitG1 ds))).dev.XOR) then
        PRes.ok (19, (nextSymbol (nextSymbol (c5LitG1 ds))).symbol.id, none) (nextSymbol (nextSymbol (nextSymbol (c5LitG1 ds))))
      else if (nextSymbol (nextSymbol (c5LitG1 ds))).symbol.type = some Scanner.NAME ∧
          (nextSymbol (nextSymbol (c5LitG1 ds))).symbol.id ∈ List.map some (nextSymbol (nextSymbol (c5LitG1 ds))).dev.gate_types then
        deviceTryGateNumber 19 (nextSymbol (nextSymbol (c5LitG1 ds))).symbol.id (nextSymbol (nextSymbol (nextSymbol (c5LitG1 ds))))
      else PRes.exc ErrKind.NameSyntaxError (nextSymbol (nextSymbol (c5LitG1 ds)))
    else PRes.exc ErrKind.PunctuationError (nextSymbol (c5LitG1 ds))) =
    deviceTryGateNumber 19 (some 0) (nextSymbol (c5LitAnd ds))
  rw [c5_scan3]
  rw [if_pos (show (c5LitColon ds).symbol.type = some Scanner.COLON from rfl)]
  rw [c5_scan4]
  rw [if_neg (show ¬((c5LitAnd ds).symbol.type = some Scanner.NAME ∧
      (c5LitAnd ds).symbol.id = some (c5LitAnd ds).dev.SWITCH) from by
    rintro ⟨-, h⟩
    rw [show (c5LitAnd ds).symbol.id = some 0 from rfl,
        show (c5LitAnd ds).dev.SWITCH = 6 from rfl] at h
    exact absurd h (by decide))]
  rw [if_neg (show ¬((c5LitAnd ds).symbol.type = some Scanner.NAME ∧
      (c5LitAnd ds).symbol.id = some (c5LitAnd ds).dev.CLOCK) from by
    rintro ⟨-, h⟩
    rw [show (c5LitAnd ds).symbol.id = some 0 from rfl,
        show (c5LitAnd ds).dev.CLOCK = 5 from rfl] at h
    exact absurd h (by decide))]
  rw [if_neg (show ¬((c5LitAnd ds).symbol.type = some Scanner.NAME ∧
      ((c5LitAnd ds).symbol.id = some (c5LitAnd ds).dev.D_TYPE ∨
        (c5LitAnd ds).symbol.id = some (c5LitAnd ds).dev.NOT ∨
        (c5LitAnd ds).symbol.id = some (c5LitAnd ds).dev.XOR)) from by
    rintro ⟨-, h⟩
    rw [show (c5LitAnd ds).symbol.id = some 0 from rfl,
        show (c5LitAnd ds).dev.D_TYPE = 7 from rfl,
        show (c5LitAnd ds).dev.NOT = 8 from rfl,
        show (c5LitAnd ds).dev.XOR = 4 from rfl] at h
    exact absurd h (by decide))]
  rw [if_pos (show ((c5LitAnd ds).symbol.type = some Scanner.NAME ∧
      (c5LitAnd ds).symbol.id ∈ List.map some (c5LitAnd ds).dev.gate_types) from
    ⟨rfl, List.mem_cons_self _ _⟩)]
  rfl

set_option smartUnfolding false in
theorem c5_gate_accept (n c : Nat) (h16 : 1 < n ∧ n ≤ 16) :
    deviceTryGateNumber 19 (some 0) (c5StAtNum n c) =
      PRes.ok (19, some 0, some n) (c5SemiSt (c + 8) (c + 7) c5Names c5Dev [] []) := by
  unfold deviceTryGateNumber
  rw [if_pos (show (c5StAtNum n c).symbol.type = some Scanner.NUMBER from rfl)]
  show (if ¬(1 < n ∧ n ≤ 16) then PRes.exc ErrKind.OutOfBoundsError (c5StAtNum n c)
    else
      let st5 := nextSymbol (c5StAtNum n c)
      if st5.symbol.type = some Scanner.KEYWORD ∧
          st5.symbol.id = st5.scan.names.query "INPUTS" then
        PRes.ok (19, some 0, some n) (nextSymbol st5)
      else PRes.exc ErrKind.MissingKeywordError st5) = _
  rw [if_neg (not_not_intro h16)]
  rfl

set_option smartUnfolding false in
theorem c5_gate_reject (n c : Nat) (h16 : ¬(1 < n ∧ n ≤ 16)) :
    deviceTryGateNumber 19 (some 0) (c5StAtNum n c) =
      PRes.exc ErrKind.OutOfBoundsError (c5StAtNum n c) := by
  unfold deviceTryGateNumber
  rw [if_pos (show (c5StAtNum n c).symbol.type = some Scanner.NUMBER from rfl)]
  show (if ¬(1 < n ∧ n ≤ 16) then PRes.exc ErrKind.OutOfBoundsError (c5StAtNum n c)
    else
      let st5 := nextSymbol (c5StAtNum n c)
      if st5.symbol.type = some Scanner.KEYWORD ∧
          st5.symbol.id = st5.scan.names.query "INPUTS" then
        PRes.ok (19, some 0, some n) (nextSymbol st5)
      else PRes.exc ErrKind.MissingKeywordError st5) = _
  rw [if_pos h16]

set_option smartUnfolding false in
set_option maxHeartbeats 1000000 in
theorem c5_device_acc (d : Char) (ds2 : List Char) (hd : isDigitChar d = true)
    (hall : ∀ c ∈ ds2, isDigitChar c = true)
    (h16 : 1 < digitsVal (d :: ds2) ∧ digitsVal (d :: ds2) ≤ 16) :
    device 50 (c5LitG1 (d :: ds2)) =
      PRes.ok () (c5SemiSt (17 + ds2.length + 1 + 8) (17 + ds2.length + 1 + 7)
        (c5MkDev (digitsVal (d :: ds2))).2.2 (c5MkDev (digitsVal (d :: ds2))).2.1 []
        [⟨CallKind.mkDevice, 0⟩]) := by
  unfold device
  rw [c5_deviceTry_split, c5_number_step d ds2 hd hall, c5_gate_accept _ _ h16]
  rfl

set_option smartUnfolding false in
set_option maxHeartbeats 1000000 in
theorem c5_device_rej (d : Char) (ds2 : List Char) (hd : isDigitChar d = true)
    (hall : ∀ c ∈ ds2, isDigitChar c = true)
    (h16 : ¬(1 < digitsVal (d :: ds2) ∧ digitsVal (d :: ds2) ≤ 16)) :
    device 50 (c5LitG1 (d :: ds2)) =
      PRes.ok () (c5SemiSt (17 + ds2.length + 1 + 8) (17 + ds2.length + 1 + 7)
        c5Names c5Dev [⟨ErrKind.OutOfBoundsError, 1, 17⟩] []) := by
  unfold device
  rw [c5_deviceTry_split, c5_number_step d ds2 hd hall, c5_gate_reject _ _ h16]
  rfl

set_option smartUnfolding false in
set_option maxHeartbeats 1000000 in
theorem c5_devicelist_acc (d : Char) (ds2 : List Char) (hd : isDigitChar d = true)
    (hall : ∀ c ∈ ds2, isDigitChar c = true)
    (h16 : 1 < digitsVal (d :: ds2) ∧ digitsVal (d :: ds2) ≤ 16) :
    devicelist 50 (c5LitDev (d :: ds2)) =
      PRes.ok () (c5EofSt (17 + ds2.length + 1 + 8)
        (c5MkDev (digitsVal (d :: ds2))).2.2 (c5MkDev (digitsVal (d :: ds2))).2.1 []
        [⟨CallKind.mkDevice, 0⟩]) := by
  unfold devicelist devicelistTry
  rw [if_pos (show (c5LitDev (d :: ds2)).symbol.type = some Scanner.KEYWORD ∧
      (c5LitDev (d :: ds2)).symbol.id = (c5LitDev (d :: ds2)).scan.names.query "DEVICE" from
    ⟨rfl, rfl⟩)]
  rw [c5_scan2, c5_device_acc d ds2 hd hall h16]
  rfl

set_option smartUnfolding false in
set_option maxHeartbeats 1000000 in
theorem c5_devicelist_rej (d : Char) (ds2 : List Char) (hd : isDigitChar d = true)
    (hall : ∀ c ∈ ds2, isDigitChar c = true)
    (h16 : ¬(1 < digitsVal (d :: ds2) ∧ digitsVal (d :: ds2) ≤ 16)) :
    devicelist 50 (c5LitDev (d :: ds2)) =
      PRes.ok () (c5EofSt (17 + ds2.length + 1 + 8) c5Names c5Dev
        [⟨ErrKind.OutOfBoundsError, 1, 17⟩] []) := by
  unfold devicelist devicelistTry
  rw [if_pos (show (c5LitDev (d :: ds2)).symbol.type = some Scanner.KEYWORD ∧
      (c5LitDev (d :: ds2)).symbol.id = (c5LitDev (d :: ds2)).scan.names.query "DEVICE" from
    ⟨rfl, rfl⟩)]
  rw [c5_scan2, c5_device_rej d ds2 hd hall h16]
  rfl

set_option smartUnfolding false in
set_option maxHeartbeats 1000000 in
/-- C5: in a generic-gate device body (here `AND`, one of the four
generic gate kinds), a NUMBER token with value `n` raises
`OutOfBoundsError` exactly when `n` does not satisfy `1 < n <= 16`:
for every non-empty decimal digit string, parsing
`DEVICE G1: AND <digits> INPUTS;` logs an `OutOfBoundsError` diagnostic
if and only if the bound fails (what follows are the two
`MissingKeywordError`s for the absent `CONNECT` and `MONITOR` lists);
in particular 2 through 16 are accepted and 1, 17, 100 are rejected. -/
theorem c5_gate_bound_iff_out_of_bounds (ds : List Char) (hne : ds ≠ [])
    (hds : ∀ c ∈ ds, isDigitChar c = true) :
    (parseNetwork 50 (gateCountInput ds)).state?.map (fun st => st.errors.map Diag.kind) =
      some (if 1 < digitsVal ds ∧ digitsVal ds ≤ 16 then
              [ErrKind.MissingKeywordError, ErrKind.MissingKeywordError]
            else
              [ErrKind.OutOfBoundsError, ErrKind.MissingKeywordError,
                ErrKind.MissingKeywordError]) := by
  obtain ⟨d, ds2, rfl⟩ := List.exists_cons_of_ne_nil hne
  have hd : isDigitChar d = true := hds d (List.mem_cons_self d ds2)
  have hall : ∀ c ∈ ds2, isDigitChar c = true :=
    fun c hc => hds c (List.mem_cons_of_mem d hc)
  by_cases h16 : 1 < digitsVal (d :: ds2) ∧ digitsVal (d :: ds2) ≤ 16
  · rw [if_pos h16]
    unfold parseNetwork
    rw [c5_scan1, c5_devicelist_acc d ds2 hd hall h16]
    rfl
  · rw [if_neg h16]
    unfold parseNetwork
    rw [c5_scan1, c5_devicelist_rej d ds2 hd hall h16]
    rfl

/-- Witness for C5 at the concrete digit string `17`: the hypotheses
hold and the parse logs `OutOfBoundsError` first. -/
theorem c5_gate_bound_iff_out_of_bounds_witness :
    (['1', '7'] : List Char) ≠ [] ∧ (∀ c ∈ (['1', '7'] : List Char), isDigitChar c = true) ∧
      (parseNetwork 50 (gateCountInput ['1', '7'])).state?.map
          (fun st => st.errors.map Diag.kind) =
        some (if 1 < digitsVal ['1', '7'] ∧ digitsVal ['1', '7'] ≤ 16 then
                [ErrKind.MissingKeywordError, ErrKind.MissingKeywordError]
              else
                [ErrKind.OutOfBoundsError, ErrKind.MissingKeywordError,
                  ErrKind.MissingKeywordError]) :=
  ⟨by decide, by decide,
    c5_gate_bound_iff_out_of_bounds ['1', '7'] (by decide) (by decide)⟩

end GF2
